import Mathlib

/-!
# mc_wifi — Wi-Fi connection manager

A shallow embedding of `mc_wifi.c` / `mc_wifi.h`.

Conventions of the embedding.

* A C argument pair `(const uint8_t *ptr, size_t size)` is a `List Nat` holding
  the `size` bytes found at `ptr`; its `length` is the C `size`.
* The module's only mutable variable, `wifi_event_group`, is the field
  `State.wifi_event_group` (the bits of the event group).  Every call that the
  module makes into the platform (Wi-Fi driver, NVS, RTOS wait) is appended to
  `State.trace` in program order.
* The platform is an `Env`: an oracle that answers each platform call given the
  history of calls made so far, and that supplies the events the dispatcher
  hands to the station handler while a wait is pending.
* `assert` and `ESP_ERROR_CHECK` abort the firmware; an aborted run is `none`.
-/

namespace McWifi

/-! ## Types of `mc_wifi.h` and of the platform headers -/

/-- Status codes, `mc_wifi_err_t` of `mc_wifi.h`. -/
inductive mc_wifi_err_t
  | mc_wifi_ok
  | mc_wifi_err
  | mc_wifi_credentials_not_found
  | mc_wifi_join_failed
  deriving DecidableEq, Repr

/-- Radio modes used by the module. -/
inductive wifi_mode_t
  | WIFI_MODE_NULL
  | WIFI_MODE_STA
  | WIFI_MODE_AP
  deriving DecidableEq, Repr

/-- Interfaces a configuration is applied to. -/
inductive wifi_interface_t
  | WIFI_IF_STA
  | WIFI_IF_AP
  deriving DecidableEq, Repr

/-- Authentication modes used by the module. -/
inductive wifi_auth_mode_t
  | WIFI_AUTH_OPEN
  | WIFI_AUTH_WPA_WPA2_PSK
  deriving DecidableEq, Repr

/-- Event bases; `OTHER_EVENT` stands for any base that is neither of the two
the module compares against. -/
inductive esp_event_base_t
  | WIFI_EVENT
  | IP_EVENT
  | OTHER_EVENT (tag : Nat)
  deriving DecidableEq, Repr

/-- The two handlers the module registers. -/
inductive Handler
  | soft_ap_event_handler
  | sta_event_handler
  deriving DecidableEq, Repr

/-- Station part of `wifi_config_t`: the fields the module writes (all other
fields stay zero from the `{ 0 }` initialiser). -/
structure wifi_sta_config_t where
  ssid : List Nat
  password : List Nat
  deriving DecidableEq, Repr

/-- Access-point part of `wifi_config_t`: the fields the module writes.
`ssid_len`, `channel` and `max_connection` are `uint8_t` fields. -/
structure wifi_ap_config_t where
  ssid : List Nat
  password : List Nat
  ssid_len : Nat
  channel : Nat
  authmode : wifi_auth_mode_t
  max_connection : Nat
  deriving DecidableEq, Repr

/-- The union `wifi_config_t`. -/
inductive wifi_config_t
  | sta (c : wifi_sta_config_t)
  | ap (c : wifi_ap_config_t)
  deriving DecidableEq, Repr

/-- One call of the module into the platform, with its arguments. -/
inductive Call
  | esp_netif_init
  | xEventGroupCreate
  | esp_netif_create_default_wifi_sta
  | esp_netif_create_default_wifi_ap
  | esp_wifi_init
  | esp_event_handler_instance_register (base : esp_event_base_t) (id : Int) (h : Handler)
  | esp_wifi_set_storage
  | esp_wifi_set_mode (mode : wifi_mode_t)
  | esp_wifi_set_config (ifx : wifi_interface_t) (conf : wifi_config_t)
  | esp_wifi_start
  | esp_wifi_connect
  | tcpip_adapter_set_hostname
  | xEventGroupWaitBits (ticks : Nat)
  | nvs_open (ns : String)
  | nvs_get_blob (key : String) (capacity : Nat)
  | nvs_set_blob (key : String) (value : List Nat) (length : Nat)
  | nvs_commit
  | nvs_close
  deriving DecidableEq, Repr

/-! ## Constants -/

/-- Success code `ESP_OK`. -/
def ESP_OK : Int := 0

/-- Generic failure code `ESP_FAIL`. -/
def ESP_FAIL : Int := -1

/-- NVS code for a missing key, `ESP_ERR_NVS_NOT_FOUND` (0x1100 + 0x02). -/
def ESP_ERR_NVS_NOT_FOUND : Int := 0x1102

/-- NVS code for a too small output buffer, `ESP_ERR_NVS_INVALID_LENGTH`
(0x1100 + 0x0c). -/
def ESP_ERR_NVS_INVALID_LENGTH : Int := 0x110c

/-- The macro `JOIN_TIMEOUT_MS`. -/
def JOIN_TIMEOUT_MS : Int := 10000

/-- The macro `CONNECTED_BIT`, which is `BIT0`. -/
def CONNECTED_BIT : Nat := 1

/-- Identifier `WIFI_EVENT_STA_DISCONNECTED` of the platform enum. -/
def WIFI_EVENT_STA_DISCONNECTED : Int := 5

/-- Identifier `IP_EVENT_STA_GOT_IP` of the platform enum. -/
def IP_EVENT_STA_GOT_IP : Int := 0

/-- Identifier `WIFI_EVENT_AP_STACONNECTED` of the platform enum. -/
def WIFI_EVENT_AP_STACONNECTED : Int := 14

/-- Identifier `WIFI_EVENT_AP_STADISCONNECTED` of the platform enum. -/
def WIFI_EVENT_AP_STADISCONNECTED : Int := 15

/-- Size of the `ssid` field of `wifi_config_t` (station and access point);
also the size of the `ssid` buffer in `_try_connect_from_credentials`. -/
def sizeof_ssid : Nat := 32

/-- Size of the `password` field of `wifi_config_t` (station and access point);
also the size of the `password` buffer in `_try_connect_from_credentials`. -/
def sizeof_password : Nat := 64

/-- Build configuration: the Kconfig values and the RTOS tick period the source
refers to.  The two strings are the characters of the string literal, without
the terminating NUL. -/
structure Platform where
  CONFIG_MC_SOFT_AP_SSID : List Nat
  CONFIG_MC_SOFT_AP_PASSWORD : List Nat
  CONFIG_MC_WIFI_CHANNEL : Int
  CONFIG_MC_MAX_STA_CONN : Int
  portTICK_PERIOD_MS : Nat

/-- The array `_mc_soft_ap_ssid[]`: the string literal with its terminating
NUL, so `sizeof` is the number of characters plus one. -/
def _mc_soft_ap_ssid (p : Platform) : List Nat := p.CONFIG_MC_SOFT_AP_SSID ++ [0]

/-- The array `_mc_soft_ap_password[]`: the string literal with its terminating
NUL. -/
def _mc_soft_ap_password (p : Platform) : List Nat := p.CONFIG_MC_SOFT_AP_PASSWORD ++ [0]

/-! ## State and environment -/

/-- Module state: the bits of `wifi_event_group` and the platform calls made so
far, oldest first. -/
structure State where
  wifi_event_group : Nat
  trace : List Call
  deriving DecidableEq, Repr

/-- The platform as seen by the module.

* `esp h c` is the `esp_err_t` returned by call `c` made after history `h`;
* `netif h c` tells whether an interface-creating call returns a non-NULL
  handle;
* `blob h key` is the value `nvs_get_blob` finds under `key`;
* `events h` lists, in order of arrival, the `(event_base, event_id)` pairs
  the event dispatcher hands to the station handler while the wait that was
  entered after history `h` is pending (that is, before its timeout). -/
structure Env where
  esp : List Call → Call → Int
  netif : List Call → Call → Bool
  blob : List Call → String → List Nat
  events : List Call → List (esp_event_base_t × Int)

/-- Append a call to the trace. -/
def record (c : Call) (s : State) : State :=
  { s with trace := s.trace ++ [c] }

/-- Make a platform call: ask the environment for its status and record it. -/
def invoke (env : Env) (c : Call) (s : State) : Int × State :=
  (env.esp s.trace c, record c s)

/-- The macro `ESP_ERROR_CHECK`: abort unless the call returned `ESP_OK`. -/
def ESP_ERROR_CHECK (r : Int × State) : Option State :=
  if r.1 = ESP_OK then some r.2 else none

/-- Modelled from the spec: the macro `ASSERT_RET` of `mc_assert.h` (not among
the sources).  Credential-store failures are recovered locally: when the
condition fails the message is logged and the function returns `ret`. -/
def ASSERT_RET {α : Type} (cond : Prop) [Decidable cond] (ret : α) (k : Unit → α) : α :=
  if cond then k () else ret

/-- Modelled from the spec: the macro `ASSERT_BREAK` of `mc_assert.h` (not among
the sources).  When the condition fails the message is logged and control
leaves the enclosing `do { } while (0)` with the value `out`. -/
def ASSERT_BREAK {α : Type} (cond : Prop) [Decidable cond] (out : α) (k : Unit → α) : α :=
  if cond then k () else out

/-- A buffer of `n` zero bytes. -/
def zeros (n : Nat) : List Nat := List.replicate n 0

/-- The call `memcpy(dst, src, n)`: the first `n` bytes of `dst` are replaced by
the first `n` bytes of `src`. -/
def memcpy (dst src : List Nat) (n : Nat) : List Nat :=
  src.take n ++ dst.drop n

/-- The call `memset(dst, c, n)`. -/
def memset (dst : List Nat) (c : Nat) (n : Nat) : List Nat :=
  List.replicate (min n dst.length) c ++ dst.drop n

/-- The call `xEventGroupSetBits(wifi_event_group, bits)`. -/
def xEventGroupSetBits (bits : Nat) (s : State) : State :=
  { s with wifi_event_group := s.wifi_event_group ||| bits }

/-- The call `xEventGroupClearBits(wifi_event_group, bits)`: and with the 32-bit
complement of `bits`. -/
def xEventGroupClearBits (bits : Nat) (s : State) : State :=
  { s with wifi_event_group := s.wifi_event_group &&& (0xFFFFFFFF ^^^ bits) }

/-! ## Event handlers -/

/-- The function `_soft_ap_event_handler`: it only logs. -/
def _soft_ap_event_handler (_event_base : esp_event_base_t) (_event_id : Int)
    (s : State) : State :=
  s

/-- The function `_sta_event_handler`. -/
def _sta_event_handler (env : Env) (event_base : esp_event_base_t) (event_id : Int)
    (s : State) : State :=
  if event_base = esp_event_base_t.WIFI_EVENT ∧ event_id = WIFI_EVENT_STA_DISCONNECTED then
    let s := (invoke env Call.esp_wifi_connect s).2
    xEventGroupClearBits CONNECTED_BIT s
  else if event_base = esp_event_base_t.IP_EVENT ∧ event_id = IP_EVENT_STA_GOT_IP then
    xEventGroupSetBits CONNECTED_BIT s
  else
    s

/-! ## The wait primitive -/

/-- A pending wait: the dispatcher runs the station handler on each arriving
event; the wait ends as soon as all awaited bits are set, and otherwise when the
events that arrive before the timeout are exhausted.  The value returned is the
event group as it is when the wait ends. -/
def waitLoop (env : Env) (uxBitsToWaitFor : Nat) :
    List (esp_event_base_t × Int) → State → Nat × State
  | [], s => (s.wifi_event_group, s)
  | e :: es, s =>
    let s := _sta_event_handler env e.1 e.2 s
    if s.wifi_event_group &&& uxBitsToWaitFor = uxBitsToWaitFor then
      (s.wifi_event_group, s)
    else
      waitLoop env uxBitsToWaitFor es s

/-- The call `xEventGroupWaitBits(wifi_event_group, bits, pdFALSE, pdTRUE, ticks)`:
no clear on exit, wait for all bits.  It returns at once when the bits are
already set. -/
def xEventGroupWaitBits (env : Env) (uxBitsToWaitFor : Nat) (xTicksToWait : Nat)
    (s : State) : Nat × State :=
  let s := record (Call.xEventGroupWaitBits xTicksToWait) s
  if s.wifi_event_group &&& uxBitsToWaitFor = uxBitsToWaitFor then
    (s.wifi_event_group, s)
  else
    waitLoop env uxBitsToWaitFor (env.events s.trace) s

/-- The expression `timeout_ms / portTICK_PERIOD_MS`: `timeout_ms` is an `int`
and the tick period a 32-bit unsigned `TickType_t`, so the division is
unsigned. -/
def ticksOf (p : Platform) (timeout_ms : Int) : Nat :=
  (timeout_ms % 2 ^ 32).toNat / p.portTICK_PERIOD_MS

/-! ## Credential store -/

/-- The call `nvs_get_blob(handle, key, out, &length)` with `*length = capacity`
on entry: the status, and on success the bytes read (whose number becomes
`*length`).  A stored value longer than `capacity` is refused by NVS. -/
def nvs_get_blob (env : Env) (key : String) (capacity : Nat) (s : State) :
    Int × List Nat × State :=
  let value := env.blob s.trace key
  let (err, s) := invoke env (Call.nvs_get_blob key capacity) s
  if err = ESP_OK then
    if value.length ≤ capacity then (ESP_OK, value, s)
    else (ESP_ERR_NVS_INVALID_LENGTH, [], s)
  else (err, [], s)

/-- The function `_get_credentials`; `ssid_size` and `pass_size` are the
capacities on entry.  Returns the status and the two buffers read. -/
def _get_credentials (env : Env) (ssid_size pass_size : Nat) (s : State) :
    (Int × List Nat × List Nat) × State :=
  let (err, s) := invoke env (Call.nvs_open "wifi") s
  ASSERT_RET (err = ESP_OK) ((err, [], []), s) fun _ =>
    let (r, s) :=
      let (err, ssid, s) := nvs_get_blob env "ssid" ssid_size s
      ASSERT_BREAK (err = ESP_OK) ((err, ssid, []), s) fun _ =>
        let (err, password, s) := nvs_get_blob env "password" pass_size s
        ASSERT_BREAK (err = ESP_OK) ((err, ssid, password), s) fun _ =>
          ((err, ssid, password), s)
    (r, record Call.nvs_close s)

/-- The function `_store_credentials`. -/
def _store_credentials (env : Env) (ssid password : List Nat) (s : State) :
    Int × State :=
  let (err, s) := invoke env (Call.nvs_open "wifi") s
  ASSERT_RET (err = ESP_OK) (err, s) fun _ =>
    let (err, s) :=
      let (err, s) := invoke env (Call.nvs_set_blob "ssid" ssid ssid.length) s
      ASSERT_BREAK (err = ESP_OK) (err, s) fun _ =>
        let (err, s) := invoke env (Call.nvs_set_blob "password" password password.length) s
        ASSERT_BREAK (err = ESP_OK) (err, s) fun _ =>
          let (err, s) := invoke env Call.nvs_commit s
          ASSERT_BREAK (err = ESP_OK) (err, s) fun _ =>
            (err, s)
    (err, record Call.nvs_close s)

/-! ## Access point -/

/-- The function `mc_wifi_start_soft_ap`.  The designated initialiser converts
`ssid_size`, `channel` and `CONFIG_MC_MAX_STA_CONN` to `uint8_t`. -/
def mc_wifi_start_soft_ap (env : Env) (p : Platform) (ssid password : List Nat)
    (channel : Int) (s : State) : Option (mc_wifi_err_t × State) :=
  let wifi_config : wifi_ap_config_t :=
    { ssid := zeros sizeof_ssid
      password := zeros sizeof_password
      ssid_len := ssid.length % 256
      channel := (channel % 256).toNat
      max_connection := (p.CONFIG_MC_MAX_STA_CONN % 256).toNat
      authmode := wifi_auth_mode_t.WIFI_AUTH_WPA_WPA2_PSK }
  if ¬ ssid.length < sizeof_ssid then none
  else if ¬ password.length < sizeof_password then none
  else
    let wifi_config := { wifi_config with ssid := memcpy wifi_config.ssid ssid ssid.length }
    let wifi_config :=
      { wifi_config with password := memcpy wifi_config.password password password.length }
    let wifi_config :=
      if password.length = 0 then
        { wifi_config with authmode := wifi_auth_mode_t.WIFI_AUTH_OPEN }
      else wifi_config
    (ESP_ERROR_CHECK (invoke env (Call.esp_wifi_set_mode wifi_mode_t.WIFI_MODE_AP) s)).bind fun s =>
    (ESP_ERROR_CHECK (invoke env
      (Call.esp_wifi_set_config wifi_interface_t.WIFI_IF_AP (wifi_config_t.ap wifi_config)) s)).bind
      fun s =>
    (ESP_ERROR_CHECK (invoke env Call.esp_wifi_start s)).bind fun s =>
    some (mc_wifi_err_t.mc_wifi_ok, s)

/-- The function `_start_soft_ap_server`: the SSID is passed with
`sizeof - 1` bytes, the password with `sizeof` bytes. -/
def _start_soft_ap_server (env : Env) (p : Platform) (s : State) :
    Option (mc_wifi_err_t × State) :=
  (mc_wifi_start_soft_ap env p
    ((_mc_soft_ap_ssid p).take ((_mc_soft_ap_ssid p).length - 1))
    ((_mc_soft_ap_password p).take (_mc_soft_ap_password p).length)
    p.CONFIG_MC_WIFI_CHANNEL s).bind fun r =>
  some (mc_wifi_err_t.mc_wifi_ok, r.2)

/-! ## Station join -/

/-- The function `_wifi_join_internal`.  The password pointer of the embedding
is never NULL, so the guarded `memset`/`memcpy` always runs. -/
def _wifi_join_internal (env : Env) (p : Platform) (ssid password : List Nat)
    (timeout_ms : Int) (s : State) : Option (mc_wifi_err_t × State) :=
  let wifi_config : wifi_sta_config_t :=
    { ssid := zeros sizeof_ssid, password := zeros sizeof_password }
  if ¬ ssid.length ≤ sizeof_ssid then none
  else if ¬ password.length ≤ sizeof_password then none
  else
    let wifi_config := { wifi_config with ssid := memcpy wifi_config.ssid ssid ssid.length }
    let wifi_config :=
      { wifi_config with
        password := memcpy (memset wifi_config.password 0 sizeof_password) password
          password.length }
    (ESP_ERROR_CHECK (invoke env (Call.esp_wifi_set_mode wifi_mode_t.WIFI_MODE_STA) s)).bind fun s =>
    (ESP_ERROR_CHECK (invoke env
      (Call.esp_wifi_set_config wifi_interface_t.WIFI_IF_STA (wifi_config_t.sta wifi_config)) s)).bind
      fun s =>
    let s := (invoke env Call.tcpip_adapter_set_hostname s).2
    (ESP_ERROR_CHECK (invoke env Call.esp_wifi_connect s)).bind fun s =>
    let (bits, s) := xEventGroupWaitBits env CONNECTED_BIT (ticksOf p timeout_ms) s
    if bits &&& CONNECTED_BIT ≠ 0 then
      some (mc_wifi_err_t.mc_wifi_ok, s)
    else
      some (mc_wifi_err_t.mc_wifi_join_failed, s)

/-- The function `mc_wifi_join`. -/
def mc_wifi_join (env : Env) (p : Platform) (ssid password : List Nat)
    (timeout : Int) (s : State) : Option (mc_wifi_err_t × State) :=
  let timeout := if timeout = 0 then JOIN_TIMEOUT_MS else timeout
  (_wifi_join_internal env p ssid password timeout s).bind fun r =>
  if r.1 ≠ mc_wifi_err_t.mc_wifi_ok then
    some (r.1, r.2)
  else
    let s := (_store_credentials env ssid password r.2).2
    some (mc_wifi_err_t.mc_wifi_ok, s)

/-! ## Start-up -/

/-- The function `_try_connect_from_credentials`: the outcome of the join is
dropped. -/
def _try_connect_from_credentials (env : Env) (p : Platform) (s : State) :
    Option (mc_wifi_err_t × State) :=
  let (ret, s) := _get_credentials env sizeof_ssid sizeof_password s
  if ESP_OK = ret.1 then
    (_wifi_join_internal env p ret.2.1 ret.2.2 JOIN_TIMEOUT_MS s).bind fun r =>
    some (mc_wifi_err_t.mc_wifi_ok, r.2)
  else
    some (mc_wifi_err_t.mc_wifi_credentials_not_found, s)

/-- An interface-creating call followed by `assert` on the handle. -/
def createNetif (env : Env) (c : Call) (s : State) : Option State :=
  if env.netif s.trace c then some (record c s) else none

/-- One checked `esp_event_handler_instance_register`. -/
def registerHandler (env : Env) (base : esp_event_base_t) (id : Int) (h : Handler)
    (s : State) : Option State :=
  ESP_ERROR_CHECK (invoke env (Call.esp_event_handler_instance_register base id h) s)

/-- The function `_initialize_wifi`. -/
def _initialize_wifi (env : Env) (s : State) : Option (mc_wifi_err_t × State) :=
  (createNetif env Call.esp_netif_create_default_wifi_sta s).bind fun s =>
  (createNetif env Call.esp_netif_create_default_wifi_ap s).bind fun s =>
  (ESP_ERROR_CHECK (invoke env Call.esp_wifi_init s)).bind fun s =>
  (registerHandler env esp_event_base_t.WIFI_EVENT WIFI_EVENT_AP_STACONNECTED
    Handler.soft_ap_event_handler s).bind fun s =>
  (registerHandler env esp_event_base_t.WIFI_EVENT WIFI_EVENT_AP_STADISCONNECTED
    Handler.soft_ap_event_handler s).bind fun s =>
  (registerHandler env esp_event_base_t.WIFI_EVENT WIFI_EVENT_STA_DISCONNECTED
    Handler.sta_event_handler s).bind fun s =>
  (registerHandler env esp_event_base_t.IP_EVENT IP_EVENT_STA_GOT_IP
    Handler.sta_event_handler s).bind fun s =>
  (ESP_ERROR_CHECK (invoke env Call.esp_wifi_set_storage s)).bind fun s =>
  (ESP_ERROR_CHECK (invoke env (Call.esp_wifi_set_mode wifi_mode_t.WIFI_MODE_NULL) s)).bind fun s =>
  (ESP_ERROR_CHECK (invoke env Call.esp_wifi_start s)).bind fun s =>
  some (mc_wifi_err_t.mc_wifi_ok, s)

/-- The call `wifi_event_group = xEventGroupCreate()`: a fresh group, all bits
clear. -/
def xEventGroupCreate (s : State) : State :=
  record Call.xEventGroupCreate { s with wifi_event_group := 0 }

/-- The function `mc_wifi_init`. -/
def mc_wifi_init (env : Env) (p : Platform) (s : State) : Option State :=
  (ESP_ERROR_CHECK (invoke env Call.esp_netif_init s)).bind fun s =>
  let s := xEventGroupCreate s
  (_initialize_wifi env s).bind fun r =>
  if ¬ mc_wifi_err_t.mc_wifi_ok = r.1 then none
  else
    (_try_connect_from_credentials env p r.2).bind fun r =>
    if mc_wifi_err_t.mc_wifi_ok ≠ r.1 then
      (_start_soft_ap_server env p r.2).bind fun r => some r.2
    else
      some r.2

/-! ## Observations on a trace -/

/-- The mode requested by an `esp_wifi_set_mode` call. -/
def Call.mode : Call → Option wifi_mode_t
  | Call.esp_wifi_set_mode m => some m
  | _ => none

/-- The modes requested by a trace, oldest first. -/
def modeCalls (tr : List Call) : List wifi_mode_t :=
  tr.filterMap Call.mode

/-- The bytes and length written under `key` by an `nvs_set_blob` call. -/
def Call.blobWrite (key : String) : Call → Option (List Nat × Nat)
  | Call.nvs_set_blob k v n => if k = key then some (v, n) else none
  | _ => none

/-- The writes a trace makes under `key`, oldest first. -/
def blobWrites (key : String) (tr : List Call) : List (List Nat × Nat) :=
  tr.filterMap (Call.blobWrite key)

/-- Credential-store calls. -/
def Call.isNvs : Call → Bool
  | Call.nvs_open _ => true
  | Call.nvs_get_blob _ _ => true
  | Call.nvs_set_blob _ _ _ => true
  | Call.nvs_commit => true
  | Call.nvs_close => true
  | _ => false

/-- The tick count of an `xEventGroupWaitBits` call. -/
def Call.waitTicks : Call → Option Nat
  | Call.xEventGroupWaitBits t => some t
  | _ => none

/-- The tick counts passed to the wait primitive by a trace, oldest first. -/
def waitCalls (tr : List Call) : List Nat :=
  tr.filterMap Call.waitTicks

/-- Number of `esp_wifi_connect` calls in a trace. -/
def connectCalls (tr : List Call) : Nat :=
  tr.count Call.esp_wifi_connect

/-- The connected bit of the event group is set. -/
def State.connected (s : State) : Prop :=
  s.wifi_event_group &&& CONNECTED_BIT ≠ 0

instance (s : State) : Decidable s.connected := by
  unfold State.connected; infer_instance

/-- The got-address event. -/
def gotIp : esp_event_base_t × Int :=
  (esp_event_base_t.IP_EVENT, IP_EVENT_STA_GOT_IP)

/-- The station-disconnected event. -/
def staDisconnected : esp_event_base_t × Int :=
  (esp_event_base_t.WIFI_EVENT, WIFI_EVENT_STA_DISCONNECTED)

/-- The station handler applied to an event given as a pair. -/
def handle (env : Env) (e : esp_event_base_t × Int) (s : State) : State :=
  _sta_event_handler env e.1 e.2 s

/-- The platform never makes the firmware abort: every status the module puts
under `ESP_ERROR_CHECK` is `ESP_OK` and every interface handle is non-NULL. -/
def Env.platformOk (env : Env) : Prop :=
  (∀ h c, c.isNvs = false → env.esp h c = ESP_OK) ∧ (∀ h c, env.netif h c = true)

/-- The station configuration `_wifi_join_internal` builds. -/
def staConfig (ssid password : List Nat) : wifi_config_t :=
  wifi_config_t.sta
    { ssid := memcpy (zeros sizeof_ssid) ssid ssid.length
      password := memcpy (memset (zeros sizeof_password) 0 sizeof_password) password
        password.length }

/-- The calls `_wifi_join_internal` makes before it waits. -/
def joinCalls (ssid password : List Nat) : List Call :=
  [ Call.esp_wifi_set_mode wifi_mode_t.WIFI_MODE_STA,
    Call.esp_wifi_set_config wifi_interface_t.WIFI_IF_STA (staConfig ssid password),
    Call.tcpip_adapter_set_hostname,
    Call.esp_wifi_connect ]

/-- The calls of a complete `_store_credentials`. -/
def storeCalls (ssid password : List Nat) : List Call :=
  [ Call.nvs_open "wifi",
    Call.nvs_set_blob "ssid" ssid ssid.length,
    Call.nvs_set_blob "password" password password.length,
    Call.nvs_commit,
    Call.nvs_close ]

/-- The access-point configuration `mc_wifi_start_soft_ap` builds. -/
def apConfig (p : Platform) (ssid password : List Nat) (channel : Int) : wifi_ap_config_t :=
  { ssid := memcpy (zeros sizeof_ssid) ssid ssid.length
    password := memcpy (zeros sizeof_password) password password.length
    ssid_len := ssid.length % 256
    channel := (channel % 256).toNat
    max_connection := (p.CONFIG_MC_MAX_STA_CONN % 256).toNat
    authmode :=
      if password.length = 0 then wifi_auth_mode_t.WIFI_AUTH_OPEN
      else wifi_auth_mode_t.WIFI_AUTH_WPA_WPA2_PSK }

/-- The calls of `mc_wifi_start_soft_ap` for a given configuration. -/
def apCalls (cfg : wifi_ap_config_t) : List Call :=
  [ Call.esp_wifi_set_mode wifi_mode_t.WIFI_MODE_AP,
    Call.esp_wifi_set_config wifi_interface_t.WIFI_IF_AP (wifi_config_t.ap cfg),
    Call.esp_wifi_start ]

/-- The calls of `mc_wifi_init` up to the end of `_initialize_wifi`. -/
def bootCalls : List Call :=
  [ Call.esp_netif_init,
    Call.xEventGroupCreate,
    Call.esp_netif_create_default_wifi_sta,
    Call.esp_netif_create_default_wifi_ap,
    Call.esp_wifi_init,
    Call.esp_event_handler_instance_register esp_event_base_t.WIFI_EVENT
      WIFI_EVENT_AP_STACONNECTED Handler.soft_ap_event_handler,
    Call.esp_event_handler_instance_register esp_event_base_t.WIFI_EVENT
      WIFI_EVENT_AP_STADISCONNECTED Handler.soft_ap_event_handler,
    Call.esp_event_handler_instance_register esp_event_base_t.WIFI_EVENT
      WIFI_EVENT_STA_DISCONNECTED Handler.sta_event_handler,
    Call.esp_event_handler_instance_register esp_event_base_t.IP_EVENT
      IP_EVENT_STA_GOT_IP Handler.sta_event_handler,
    Call.esp_wifi_set_storage,
    Call.esp_wifi_set_mode wifi_mode_t.WIFI_MODE_NULL,
    Call.esp_wifi_start ]

/-- The calls of a complete `_get_credentials`. -/
def readCalls : List Call :=
  [ Call.nvs_open "wifi",
    Call.nvs_get_blob "ssid" sizeof_ssid,
    Call.nvs_get_blob "password" sizeof_password,
    Call.nvs_close ]

/-- Calls that switch the radio to access-point mode or configure the
access-point interface. -/
def Call.isAp : Call → Bool
  | Call.esp_wifi_set_mode wifi_mode_t.WIFI_MODE_AP => true
  | Call.esp_wifi_set_config wifi_interface_t.WIFI_IF_AP _ => true
  | _ => false

/-- The credential store cannot be read: `nvs_open` fails, or `nvs_get_blob`
fails for "ssid", or it fails for "password". -/
def Env.readFails (env : Env) : Prop :=
  (∀ h, env.esp h (Call.nvs_open "wifi") ≠ ESP_OK) ∨
  (∀ h, env.esp h (Call.nvs_get_blob "ssid" sizeof_ssid) ≠ ESP_OK) ∨
  (∀ h, env.esp h (Call.nvs_get_blob "password" sizeof_password) ≠ ESP_OK)

/-- The credential store holds valid credentials: it opens, and both blobs are
found and fit the buffers of `_try_connect_from_credentials`. -/
def Env.readOk (env : Env) : Prop :=
  (∀ h, env.esp h (Call.nvs_open "wifi") = ESP_OK) ∧
  (∀ h, env.esp h (Call.nvs_get_blob "ssid" sizeof_ssid) = ESP_OK ∧
    (env.blob h "ssid").length ≤ sizeof_ssid) ∧
  (∀ h, env.esp h (Call.nvs_get_blob "password" sizeof_password) = ESP_OK ∧
    (env.blob h "password").length ≤ sizeof_password)

/-- The stored credentials can be read by a `_get_credentials` entered after
history `h`: `nvs_open` succeeds, and each of the two `nvs_get_blob` calls
succeeds and finds a value that fits its buffer.  Stated on the answers of the
platform alone. -/
def Env.readableAt (env : Env) (h : List Call) : Prop :=
  env.esp h (Call.nvs_open "wifi") = ESP_OK ∧
  env.esp (h ++ [Call.nvs_open "wifi"]) (Call.nvs_get_blob "ssid" 32) = ESP_OK ∧
  (env.blob (h ++ [Call.nvs_open "wifi"]) "ssid").length ≤ 32 ∧
  env.esp (h ++ [Call.nvs_open "wifi", Call.nvs_get_blob "ssid" 32])
    (Call.nvs_get_blob "password" 64) = ESP_OK ∧
  (env.blob (h ++ [Call.nvs_open "wifi", Call.nvs_get_blob "ssid" 32]) "password").length ≤ 64

/-- The history at the moment the start-up join of `mc_wifi_init`, entered in
state `s` with readable credentials, starts to wait: the boot calls, the four
store calls, the station calls for the credentials read, and the wait of
`10000 / portTICK_PERIOD_MS` ticks. -/
def startupWaitHistory (env : Env) (p : Platform) (s : State) : List Call :=
  s.trace ++ bootCalls ++ readCalls
    ++ joinCalls (env.blob (s.trace ++ bootCalls ++ [Call.nvs_open "wifi"]) "ssid")
        (env.blob (s.trace ++ bootCalls
          ++ [Call.nvs_open "wifi", Call.nvs_get_blob "ssid" 32]) "password")
    ++ [Call.xEventGroupWaitBits (10000 / p.portTICK_PERIOD_MS)]

/-- The timeout `mc_wifi_join` hands to `_wifi_join_internal`. -/
def effectiveTimeout (timeout : Int) : Int :=
  if timeout = 0 then JOIN_TIMEOUT_MS else timeout

/-- The history at the moment `mc_wifi_join`, entered in state `s`, starts to
wait: the environment is asked for the events of exactly this wait. -/
def waitHistory (p : Platform) (ssid password : List Nat) (timeout : Int) (s : State) :
    List Call :=
  s.trace ++ joinCalls ssid password
    ++ [Call.xEventGroupWaitBits (ticksOf p (effectiveTimeout timeout))]

/-! ## Sample environments -/

/-- A platform on which every call succeeds, nothing is stored and no event
arrives. -/
def quietEnv : Env :=
  { esp := fun _ _ => ESP_OK
    netif := fun _ _ => true
    blob := fun _ _ => []
    events := fun _ => [] }

/-- A build configuration: SSID "mc", password "secret12", channel 6, four
stations, 10 ms ticks. -/
def samplePlatform : Platform :=
  { CONFIG_MC_SOFT_AP_SSID := [109, 99]
    CONFIG_MC_SOFT_AP_PASSWORD := [115, 101, 99, 114, 101, 116, 49, 50]
    CONFIG_MC_WIFI_CHANNEL := 6
    CONFIG_MC_MAX_STA_CONN := 4
    portTICK_PERIOD_MS := 10 }

/-- NVS code `ESP_ERR_NVS_NOT_INITIALIZED` (0x1100 + 0x01). -/
def ESP_ERR_NVS_NOT_INITIALIZED : Int := 0x1101

/-- NVS code `ESP_ERR_NVS_NOT_ENOUGH_SPACE` (0x1100 + 0x05). -/
def ESP_ERR_NVS_NOT_ENOUGH_SPACE : Int := 0x1105

/-- The value stored under an NVS key in the sample environments that hold
credentials: SSID "home", password "hunter22". -/
def storedBlob (key : String) : List Nat :=
  if key = "ssid" then [104, 111, 109, 101]
  else if key = "password" then [104, 117, 110, 116, 101, 114, 50, 50]
  else []

/-- A platform on which every call succeeds, credentials are stored, and every
wait sees one got-address event. -/
def connectingEnv : Env :=
  { esp := fun _ _ => ESP_OK
    netif := fun _ _ => true
    blob := fun _ key => storedBlob key
    events := fun _ => [gotIp] }

/-- A platform on which every call succeeds and credentials are stored, but no
event ever arrives. -/
def storedEnv : Env :=
  { esp := fun _ _ => ESP_OK
    netif := fun _ _ => true
    blob := fun _ key => storedBlob key
    events := fun _ => [] }

/-- A platform whose credential store cannot be opened (NVS was never
initialised); every wait sees one got-address event. -/
def closedStoreEnv : Env :=
  { esp := fun _ c =>
      match c with
      | Call.nvs_open _ => ESP_ERR_NVS_NOT_INITIALIZED
      | _ => ESP_OK
    netif := fun _ _ => true
    blob := fun _ _ => []
    events := fun _ => [gotIp] }

/-- A platform whose credential store is empty and cannot be opened; no event
ever arrives. -/
def closedStoreQuietEnv : Env :=
  { esp := fun _ c =>
      match c with
      | Call.nvs_open _ => ESP_ERR_NVS_NOT_INITIALIZED
      | _ => ESP_OK
    netif := fun _ _ => true
    blob := fun _ _ => []
    events := fun _ => [] }

/-- A platform whose credential store opens but refuses every write; no event
ever arrives. -/
def fullStoreEnv : Env :=
  { esp := fun _ c =>
      match c with
      | Call.nvs_set_blob _ _ _ => ESP_ERR_NVS_NOT_ENOUGH_SPACE
      | _ => ESP_OK
    netif := fun _ _ => true
    blob := fun _ _ => []
    events := fun _ => [] }

/-- A build configuration with an empty fallback password: SSID "mc",
password "", channel 6, four stations, 10 ms ticks. -/
def openPlatform : Platform :=
  { CONFIG_MC_SOFT_AP_SSID := [109, 99]
    CONFIG_MC_SOFT_AP_PASSWORD := []
    CONFIG_MC_WIFI_CHANNEL := 6
    CONFIG_MC_MAX_STA_CONN := 4
    portTICK_PERIOD_MS := 10 }

/-- A build configuration whose fallback SSID has 32 characters. -/
def longSsidPlatform : Platform :=
  { CONFIG_MC_SOFT_AP_SSID := List.replicate 32 65
    CONFIG_MC_SOFT_AP_PASSWORD := [115, 101, 99, 114, 101, 116, 49, 50]
    CONFIG_MC_WIFI_CHANNEL := 6
    CONFIG_MC_MAX_STA_CONN := 4
    portTICK_PERIOD_MS := 10 }

/-- A build configuration whose fallback password has 63 characters. -/
def longPasswordPlatform : Platform :=
  { CONFIG_MC_SOFT_AP_SSID := [109, 99]
    CONFIG_MC_SOFT_AP_PASSWORD := List.replicate 63 49
    CONFIG_MC_WIFI_CHANNEL := 6
    CONFIG_MC_MAX_STA_CONN := 4
    portTICK_PERIOD_MS := 10 }

/-- A build configuration whose channel does not fit eight bits. -/
def farChannelPlatform : Platform :=
  { CONFIG_MC_SOFT_AP_SSID := [109, 99]
    CONFIG_MC_SOFT_AP_PASSWORD := [115, 101, 99, 114, 101, 116, 49, 50]
    CONFIG_MC_WIFI_CHANNEL := 256
    CONFIG_MC_MAX_STA_CONN := 4
    portTICK_PERIOD_MS := 10 }

/-- The state of a freshly created event group with an empty trace. -/
def freshState : State :=
  { wifi_event_group := 0, trace := [] }

end McWifi

/-! ## Properties -/

namespace McWifi

/-! ### The connected bit -/

theorem setBit_and (x : Nat) : (x ||| CONNECTED_BIT) &&& CONNECTED_BIT = CONNECTED_BIT := by
  simp [CONNECTED_BIT, Nat.and_one_is_mod, Nat.or_mod_two_eq_one]

theorem clearBit_and (x : Nat) :
    (x &&& (0xFFFFFFFF ^^^ CONNECTED_BIT)) &&& CONNECTED_BIT = 0 := by
  have h : (0xFFFFFFFF ^^^ CONNECTED_BIT) &&& CONNECTED_BIT = 0 := by decide
  rw [Nat.land_assoc, h, Nat.and_zero]

theorem clearBit_idem (x : Nat) :
    (x &&& (0xFFFFFFFF ^^^ CONNECTED_BIT)) &&& (0xFFFFFFFF ^^^ CONNECTED_BIT)
      = x &&& (0xFFFFFFFF ^^^ CONNECTED_BIT) := by
  rw [Nat.land_assoc, Nat.and_self]

theorem bit_cases (x : Nat) : x &&& CONNECTED_BIT = 0 ∨ x &&& CONNECTED_BIT = CONNECTED_BIT := by
  simp only [CONNECTED_BIT, Nat.and_one_is_mod]; omega

theorem connected_iff (s : State) :
    s.connected ↔ s.wifi_event_group &&& CONNECTED_BIT = CONNECTED_BIT := by
  unfold State.connected
  rcases bit_cases s.wifi_event_group with h | h
  · rw [h]; simp [CONNECTED_BIT]
  · rw [h]; simp [CONNECTED_BIT]

/-! ### The station handler -/

theorem handle_disconnected (env : Env) (s : State) :
    handle env staDisconnected s
      = { wifi_event_group := s.wifi_event_group &&& (0xFFFFFFFF ^^^ CONNECTED_BIT)
          trace := s.trace ++ [Call.esp_wifi_connect] } := by
  simp [handle, staDisconnected, _sta_event_handler, invoke, record, xEventGroupClearBits]

theorem handle_gotIp (env : Env) (s : State) :
    handle env gotIp s
      = { wifi_event_group := s.wifi_event_group ||| CONNECTED_BIT, trace := s.trace } := by
  simp [handle, gotIp, _sta_event_handler, xEventGroupSetBits]

theorem handle_other (env : Env) (e : esp_event_base_t × Int) (s : State)
    (h1 : e ≠ staDisconnected) (h2 : e ≠ gotIp) : handle env e s = s := by
  obtain ⟨b, i⟩ := e
  have h1 : ¬ (b = esp_event_base_t.WIFI_EVENT ∧ i = WIFI_EVENT_STA_DISCONNECTED) := by
    rintro ⟨rfl, rfl⟩; exact h1 rfl
  have h2 : ¬ (b = esp_event_base_t.IP_EVENT ∧ i = IP_EVENT_STA_GOT_IP) := by
    rintro ⟨rfl, rfl⟩; exact h2 rfl
  simp only [handle, _sta_event_handler, if_neg h1, if_neg h2]

theorem iterate_disconnected (env : Env) (s : State) (n : Nat) :
    (handle env staDisconnected)^[n + 1] s
      = { wifi_event_group := s.wifi_event_group &&& (0xFFFFFFFF ^^^ CONNECTED_BIT)
          trace := s.trace ++ List.replicate (n + 1) Call.esp_wifi_connect } := by
  induction n generalizing s with
  | zero => simp [handle_disconnected]
  | succ k ih =>
    rw [Function.iterate_succ_apply, ih, handle_disconnected]
    simp only [clearBit_idem, List.append_assoc, State.mk.injEq, true_and]
    simp [List.replicate_succ]

/-! ### The wait primitive -/

theorem waitLoop_fst (env : Env) (evs : List (esp_event_base_t × Int)) (s : State) :
    (waitLoop env CONNECTED_BIT evs s).1
      = (waitLoop env CONNECTED_BIT evs s).2.wifi_event_group := by
  induction evs generalizing s with
  | nil => rfl
  | cons e es ih =>
    simp only [waitLoop]
    split
    · rfl
    · exact ih _

theorem waitLoop_trace (env : Env) (evs : List (esp_event_base_t × Int)) (s : State) :
    ∃ k, (waitLoop env CONNECTED_BIT evs s).2.trace
      = s.trace ++ List.replicate k Call.esp_wifi_connect := by
  induction evs generalizing s with
  | nil => exact ⟨0, by simp [waitLoop]⟩
  | cons e es ih =>
    have hstep : ∃ j, (handle env e s).trace
        = s.trace ++ List.replicate j Call.esp_wifi_connect := by
      by_cases h1 : e = staDisconnected
      · exact ⟨1, by rw [h1, handle_disconnected]; rfl⟩
      · by_cases h2 : e = gotIp
        · exact ⟨0, by rw [h2, handle_gotIp]; simp⟩
        · exact ⟨0, by rw [handle_other env e s h1 h2]; simp⟩
    obtain ⟨j, hj⟩ := hstep
    simp only [waitLoop]
    split
    · exact ⟨j, hj⟩
    · obtain ⟨k, hk⟩ := ih (_sta_event_handler env e.1 e.2 s)
      refine ⟨j + k, ?_⟩
      rw [hk]
      change (handle env e s).trace ++ _ = _
      rw [hj, List.append_assoc, List.append_replicate_replicate]

theorem waitLoop_gotIp (env : Env) (evs : List (esp_event_base_t × Int)) (s : State)
    (h : gotIp ∈ evs) : (waitLoop env CONNECTED_BIT evs s).2.connected := by
  induction evs generalizing s with
  | nil => simp at h
  | cons e es ih =>
    simp only [waitLoop]
    split
    · next hc => exact (connected_iff _).2 hc
    · next hc =>
      rcases List.mem_cons.1 h with he | he
      · exfalso
        apply hc
        change (handle env e s).wifi_event_group &&& CONNECTED_BIT = CONNECTED_BIT
        rw [← he, handle_gotIp]
        exact setBit_and _
      · exact ih _ he

theorem waitLoop_no_gotIp (env : Env) (evs : List (esp_event_base_t × Int)) (s : State)
    (h : gotIp ∉ evs) (hs : ¬ s.connected) :
    ¬ (waitLoop env CONNECTED_BIT evs s).2.connected := by
  induction evs generalizing s with
  | nil => simpa [waitLoop] using hs
  | cons e es ih =>
    have he : e ≠ gotIp := fun hh => h (by simp [hh])
    have hes : gotIp ∉ es := fun hh => h (List.mem_cons_of_mem _ hh)
    have hstep : ¬ (handle env e s).connected := by
      by_cases h1 : e = staDisconnected
      · rw [h1, handle_disconnected, connected_iff]
        simp only []
        rw [clearBit_and]; decide
      · rw [handle_other env e s h1 he]; exact hs
    simp only [waitLoop]
    split
    · next hc => exact absurd ((connected_iff _).2 hc) hstep
    · exact ih _ hes hstep

theorem wait_fst (env : Env) (t : Nat) (s : State) :
    (xEventGroupWaitBits env CONNECTED_BIT t s).1
      = (xEventGroupWaitBits env CONNECTED_BIT t s).2.wifi_event_group := by
  simp only [xEventGroupWaitBits]
  split
  · rfl
  · exact waitLoop_fst _ _ _

theorem wait_trace (env : Env) (t : Nat) (s : State) :
    ∃ k, (xEventGroupWaitBits env CONNECTED_BIT t s).2.trace
      = s.trace ++ [Call.xEventGroupWaitBits t] ++ List.replicate k Call.esp_wifi_connect := by
  simp only [xEventGroupWaitBits]
  split
  · exact ⟨0, by simp [record]⟩
  · obtain ⟨k, hk⟩ := waitLoop_trace env
      (env.events (record (Call.xEventGroupWaitBits t) s).trace)
      (record (Call.xEventGroupWaitBits t) s)
    exact ⟨k, by rw [hk]; rfl⟩

theorem wait_already (env : Env) (t : Nat) (s : State) (h : s.connected) :
    (xEventGroupWaitBits env CONNECTED_BIT t s).2
      = { wifi_event_group := s.wifi_event_group
          trace := s.trace ++ [Call.xEventGroupWaitBits t] } := by
  have hc : (record (Call.xEventGroupWaitBits t) s).wifi_event_group &&& CONNECTED_BIT
      = CONNECTED_BIT := (connected_iff s).1 h
  simp only [xEventGroupWaitBits, if_pos hc]
  rfl

theorem wait_gotIp (env : Env) (t : Nat) (s : State)
    (h : gotIp ∈ env.events (s.trace ++ [Call.xEventGroupWaitBits t])) :
    (xEventGroupWaitBits env CONNECTED_BIT t s).2.connected := by
  simp only [xEventGroupWaitBits]
  split
  · next hc => exact (connected_iff _).2 hc
  · exact waitLoop_gotIp _ _ _ h

theorem wait_no_gotIp (env : Env) (t : Nat) (s : State)
    (h : gotIp ∉ env.events (s.trace ++ [Call.xEventGroupWaitBits t]))
    (hs : ¬ s.connected) :
    ¬ (xEventGroupWaitBits env CONNECTED_BIT t s).2.connected := by
  simp only [xEventGroupWaitBits]
  split
  · next hc => exact absurd ((connected_iff s).2 hc) hs
  · exact waitLoop_no_gotIp _ _ _ h hs

/-! ### Checked platform calls -/

theorem check_ok (env : Env) (ok : env.platformOk) (c : Call) (hc : c.isNvs = false)
    (s : State) : ESP_ERROR_CHECK (invoke env c s) = some (record c s) := by
  simp [ESP_ERROR_CHECK, invoke, ok.1 _ _ hc]

/-! ### The station join -/

theorem join_internal_eq (env : Env) (p : Platform) (ssid password : List Nat) (t : Int)
    (s : State) (hs : ssid.length ≤ sizeof_ssid) (hp : password.length ≤ sizeof_password)
    (ok : env.platformOk) :
    _wifi_join_internal env p ssid password t s
      = some
          (if (xEventGroupWaitBits env CONNECTED_BIT (ticksOf p t)
                { wifi_event_group := s.wifi_event_group
                  trace := s.trace ++ joinCalls ssid password }).2.connected
            then mc_wifi_err_t.mc_wifi_ok else mc_wifi_err_t.mc_wifi_join_failed,
           (xEventGroupWaitBits env CONNECTED_BIT (ticksOf p t)
                { wifi_event_group := s.wifi_event_group
                  trace := s.trace ++ joinCalls ssid password }).2) := by
  have e1 : record Call.esp_wifi_connect
      (invoke env Call.tcpip_adapter_set_hostname
        (record (Call.esp_wifi_set_config wifi_interface_t.WIFI_IF_STA (staConfig ssid password))
          (record (Call.esp_wifi_set_mode wifi_mode_t.WIFI_MODE_STA) s))).2
      = { wifi_event_group := s.wifi_event_group
          trace := s.trace ++ joinCalls ssid password } := by
    simp [record, invoke, joinCalls]
  unfold _wifi_join_internal
  simp only [not_le.symm, hs, hp, not_true_eq_false, if_false, not_not]
  simp only [check_ok env ok, Call.isNvs, Option.bind_eq_bind, Option.some_bind]
  unfold staConfig at e1
  rw [e1, wait_fst]
  unfold State.connected
  split <;> rfl

theorem store_trace (env : Env) (ssid password : List Nat) (s : State)
    (hopen : env.esp s.trace (Call.nvs_open "wifi") = ESP_OK)
    (hssid : env.esp (s.trace ++ [Call.nvs_open "wifi"])
      (Call.nvs_set_blob "ssid" ssid ssid.length) = ESP_OK) :
    ∃ rest, (rest = [Call.nvs_close] ∨ rest = [Call.nvs_commit, Call.nvs_close]) ∧
      (_store_credentials env ssid password s).2
        = { wifi_event_group := s.wifi_event_group
            trace := s.trace ++ [Call.nvs_open "wifi",
              Call.nvs_set_blob "ssid" ssid ssid.length,
              Call.nvs_set_blob "password" password password.length] ++ rest } := by
  by_cases hpw : env.esp (s.trace ++ [Call.nvs_open "wifi",
      Call.nvs_set_blob "ssid" ssid ssid.length])
      (Call.nvs_set_blob "password" password password.length) = ESP_OK
  · exact ⟨[Call.nvs_commit, Call.nvs_close], Or.inr rfl, by
      simp [_store_credentials, ASSERT_RET, ASSERT_BREAK, invoke, record, hopen, hssid, hpw]⟩
  · exact ⟨[Call.nvs_close], Or.inl rfl, by
      simp [_store_credentials, ASSERT_RET, ASSERT_BREAK, invoke, record, hopen, hssid, hpw]⟩

theorem store_closed (env : Env) (ssid password : List Nat) (s : State)
    (hopen : env.esp s.trace (Call.nvs_open "wifi") ≠ ESP_OK) :
    (_store_credentials env ssid password s).2
      = { wifi_event_group := s.wifi_event_group
          trace := s.trace ++ [Call.nvs_open "wifi"] } := by
  simp [_store_credentials, ASSERT_RET, invoke, record, hopen]

theorem join_eq (env : Env) (p : Platform) (ssid password : List Nat) (t : Int)
    (s : State) (hs : ssid.length ≤ sizeof_ssid) (hp : password.length ≤ sizeof_password)
    (ok : env.platformOk) :
    mc_wifi_join env p ssid password t s
      = some
          (if (xEventGroupWaitBits env CONNECTED_BIT (ticksOf p (effectiveTimeout t))
                { wifi_event_group := s.wifi_event_group
                  trace := s.trace ++ joinCalls ssid password }).2.connected
            then
              (mc_wifi_err_t.mc_wifi_ok,
                (_store_credentials env ssid password
                  (xEventGroupWaitBits env CONNECTED_BIT (ticksOf p (effectiveTimeout t))
                    { wifi_event_group := s.wifi_event_group
                      trace := s.trace ++ joinCalls ssid password }).2).2)
            else
              (mc_wifi_err_t.mc_wifi_join_failed,
                (xEventGroupWaitBits env CONNECTED_BIT (ticksOf p (effectiveTimeout t))
                  { wifi_event_group := s.wifi_event_group
                    trace := s.trace ++ joinCalls ssid password }).2)) := by
  unfold mc_wifi_join
  simp only []
  change (_wifi_join_internal env p ssid password (effectiveTimeout t) s).bind _ = _
  rw [join_internal_eq env p ssid password _ s hs hp ok]
  simp only [Option.some_bind]
  split <;> simp

theorem isNvs_join_segment (ssid password : List Nat) (t k : Nat) :
    ∀ c ∈ joinCalls ssid password ++ [Call.xEventGroupWaitBits t]
        ++ List.replicate k Call.esp_wifi_connect, c.isNvs = false := by
  intro c hc
  simp only [joinCalls, List.mem_append, List.mem_cons, List.mem_singleton,
    List.not_mem_nil, or_false, List.mem_replicate] at hc
  rcases hc with ((h | h | h | h) | h) | ⟨_, h⟩ <;> rw [h] <;> rfl

theorem blobWrites_of_no_nvs (key : String) (tr : List Call)
    (h : ∀ c ∈ tr, c.isNvs = false) : blobWrites key tr = [] := by
  induction tr with
  | nil => rfl
  | cons c cs ih =>
    have hc : c.isNvs = false := h c (List.mem_cons_self _ _)
    have hcs : blobWrites key cs = [] := ih fun d hd => h d (List.mem_cons_of_mem _ hd)
    unfold blobWrites at hcs ⊢
    cases c <;> simp_all [Call.isNvs, Call.blobWrite]

theorem blobWrites_append (key : String) (a b : List Call) :
    blobWrites key (a ++ b) = blobWrites key a ++ blobWrites key b := by
  simp [blobWrites]

theorem blobWrites_store_tail (key : String) (rest : List Call)
    (h : rest = [Call.nvs_close] ∨ rest = [Call.nvs_commit, Call.nvs_close]) :
    blobWrites key rest = [] := by
  rcases h with h | h <;> rw [h] <;> rfl

theorem join_connected (env : Env) (p : Platform) (ssid password : List Nat) (t : Int)
    (s : State) (hs : ssid.length ≤ sizeof_ssid) (hp : password.length ≤ sizeof_password)
    (ok : env.platformOk)
    (hc : (xEventGroupWaitBits env CONNECTED_BIT (ticksOf p (effectiveTimeout t))
            { wifi_event_group := s.wifi_event_group
              trace := s.trace ++ joinCalls ssid password }).2.connected)
    (hopen : ∀ h, env.esp h (Call.nvs_open "wifi") = ESP_OK)
    (hssid : ∀ h, env.esp h (Call.nvs_set_blob "ssid" ssid ssid.length) = ESP_OK) :
    ∃ k rest, (rest = [Call.nvs_close] ∨ rest = [Call.nvs_commit, Call.nvs_close]) ∧
      mc_wifi_join env p ssid password t s
        = some (mc_wifi_err_t.mc_wifi_ok,
            { wifi_event_group :=
                (xEventGroupWaitBits env CONNECTED_BIT (ticksOf p (effectiveTimeout t))
                  { wifi_event_group := s.wifi_event_group
                    trace := s.trace ++ joinCalls ssid password }).2.wifi_event_group
              trace := s.trace
                ++ (joinCalls ssid password
                    ++ [Call.xEventGroupWaitBits (ticksOf p (effectiveTimeout t))]
                    ++ List.replicate k Call.esp_wifi_connect)
                ++ [Call.nvs_open "wifi",
                    Call.nvs_set_blob "ssid" ssid ssid.length,
                    Call.nvs_set_blob "password" password password.length]
                ++ rest }) := by
  obtain ⟨k, hk⟩ := wait_trace env (ticksOf p (effectiveTimeout t))
    { wifi_event_group := s.wifi_event_group, trace := s.trace ++ joinCalls ssid password }
  obtain ⟨rest, hr, he⟩ := store_trace env ssid password
    (xEventGroupWaitBits env CONNECTED_BIT (ticksOf p (effectiveTimeout t))
      { wifi_event_group := s.wifi_event_group
        trace := s.trace ++ joinCalls ssid password }).2 (hopen _) (hssid _)
  refine ⟨k, rest, hr, ?_⟩
  rw [join_eq env p ssid password t s hs hp ok, if_pos hc, he, hk]
  simp only [List.append_assoc]

theorem join_not_connected (env : Env) (p : Platform) (ssid password : List Nat) (t : Int)
    (s : State) (hs : ssid.length ≤ sizeof_ssid) (hp : password.length ≤ sizeof_password)
    (ok : env.platformOk)
    (hc : ¬ (xEventGroupWaitBits env CONNECTED_BIT (ticksOf p (effectiveTimeout t))
            { wifi_event_group := s.wifi_event_group
              trace := s.trace ++ joinCalls ssid password }).2.connected) :
    ∃ k s', mc_wifi_join env p ssid password t s
        = some (mc_wifi_err_t.mc_wifi_join_failed, s') ∧ ¬ s'.connected ∧
      s'.trace = s.trace
        ++ (joinCalls ssid password
            ++ [Call.xEventGroupWaitBits (ticksOf p (effectiveTimeout t))]
            ++ List.replicate k Call.esp_wifi_connect) := by
  obtain ⟨k, hk⟩ := wait_trace env (ticksOf p (effectiveTimeout t))
    { wifi_event_group := s.wifi_event_group, trace := s.trace ++ joinCalls ssid password }
  refine ⟨k, _, ?_, hc, ?_⟩
  · rw [join_eq env p ssid password t s hs hp ok, if_neg hc]
  · rw [hk]; simp only [List.append_assoc]

theorem store_trace_any (env : Env) (ssid password : List Nat) (s : State) :
    ∃ tl, (∀ c ∈ tl, c.isNvs = true) ∧
      (_store_credentials env ssid password s).2
        = { wifi_event_group := s.wifi_event_group, trace := s.trace ++ tl } := by
  simp only [_store_credentials, ASSERT_RET, ASSERT_BREAK, invoke, record]
  split_ifs
  · exact ⟨[Call.nvs_open "wifi", Call.nvs_set_blob "ssid" ssid ssid.length,
      Call.nvs_set_blob "password" password password.length, Call.nvs_commit,
      Call.nvs_close], by simp [Call.isNvs], by simp⟩
  · exact ⟨[Call.nvs_open "wifi", Call.nvs_set_blob "ssid" ssid ssid.length,
      Call.nvs_set_blob "password" password password.length, Call.nvs_commit,
      Call.nvs_close], by simp [Call.isNvs], by simp⟩
  · exact ⟨[Call.nvs_open "wifi", Call.nvs_set_blob "ssid" ssid ssid.length,
      Call.nvs_set_blob "password" password password.length, Call.nvs_close],
      by simp [Call.isNvs], by simp⟩
  · exact ⟨[Call.nvs_open "wifi", Call.nvs_set_blob "ssid" ssid ssid.length,
      Call.nvs_close], by simp [Call.isNvs], by simp⟩
  · exact ⟨[Call.nvs_open "wifi"], by simp [Call.isNvs], by simp⟩

theorem join_trace_any (env : Env) (p : Platform) (ssid password : List Nat) (t : Int)
    (s : State) (hs : ssid.length ≤ sizeof_ssid) (hp : password.length ≤ sizeof_password)
    (ok : env.platformOk) :
    ∃ r s' k tl, mc_wifi_join env p ssid password t s = some (r, s') ∧
      (∀ c ∈ tl, c.isNvs = true) ∧
      s'.trace = s.trace
        ++ (joinCalls ssid password
            ++ [Call.xEventGroupWaitBits (ticksOf p (effectiveTimeout t))]
            ++ List.replicate k Call.esp_wifi_connect)
        ++ tl := by
  obtain ⟨k, hk⟩ := wait_trace env (ticksOf p (effectiveTimeout t))
    { wifi_event_group := s.wifi_event_group, trace := s.trace ++ joinCalls ssid password }
  obtain ⟨tl, htl, he⟩ := store_trace_any env ssid password
    (xEventGroupWaitBits env CONNECTED_BIT (ticksOf p (effectiveTimeout t))
      { wifi_event_group := s.wifi_event_group
        trace := s.trace ++ joinCalls ssid password }).2
  rw [join_eq env p ssid password t s hs hp ok]
  split
  · refine ⟨_, _, k, tl, rfl, htl, ?_⟩
    rw [he, hk]; simp only [List.append_assoc]
  · refine ⟨_, _, k, [], rfl, by simp, ?_⟩
    rw [hk]; simp only [List.append_assoc, List.append_nil]

theorem waitCalls_append (a b : List Call) :
    waitCalls (a ++ b) = waitCalls a ++ waitCalls b := by
  simp [waitCalls]

theorem waitCalls_of_nvs (tl : List Call) (h : ∀ c ∈ tl, c.isNvs = true) :
    waitCalls tl = [] := by
  induction tl with
  | nil => rfl
  | cons c cs ih =>
    have hc : c.isNvs = true := h c (List.mem_cons_self _ _)
    have hcs : waitCalls cs = [] := ih fun d hd => h d (List.mem_cons_of_mem _ hd)
    unfold waitCalls at hcs ⊢
    cases c <;> simp_all [Call.isNvs, Call.waitTicks]

theorem waitCalls_join_segment (ssid password : List Nat) (t k : Nat) :
    waitCalls (joinCalls ssid password ++ [Call.xEventGroupWaitBits t]
      ++ List.replicate k Call.esp_wifi_connect) = [t] := by
  simp [waitCalls, joinCalls, Call.waitTicks, List.filterMap_append]

/-! ### Access point -/

theorem memcpy_zeros (n : Nat) (src : List Nat) :
    memcpy (zeros n) src src.length = src ++ zeros (n - src.length) := by
  simp [memcpy, zeros]

theorem start_soft_ap_eq (env : Env) (p : Platform) (ssid password : List Nat)
    (channel : Int) (s : State) (hs : ssid.length < sizeof_ssid)
    (hp : password.length < sizeof_password) (ok : env.platformOk) :
    mc_wifi_start_soft_ap env p ssid password channel s
      = some (mc_wifi_err_t.mc_wifi_ok,
          { wifi_event_group := s.wifi_event_group
            trace := s.trace ++ apCalls (apConfig p ssid password channel) }) := by
  unfold mc_wifi_start_soft_ap
  simp only [hs, hp, not_true_eq_false, if_false]
  simp only [check_ok env ok, Call.isNvs, Option.bind_eq_bind, Option.some_bind]
  by_cases h0 : password.length = 0
  · simp [h0, apConfig, apCalls, record]
  · simp [h0, apConfig, apCalls, record]

theorem start_soft_ap_server_eq (env : Env) (p : Platform) (s : State)
    (hs : p.CONFIG_MC_SOFT_AP_SSID.length < sizeof_ssid)
    (hp : p.CONFIG_MC_SOFT_AP_PASSWORD.length + 1 < sizeof_password)
    (ok : env.platformOk) :
    _start_soft_ap_server env p s
      = some (mc_wifi_err_t.mc_wifi_ok,
          { wifi_event_group := s.wifi_event_group
            trace := s.trace ++ apCalls (apConfig p p.CONFIG_MC_SOFT_AP_SSID
              (p.CONFIG_MC_SOFT_AP_PASSWORD ++ [0]) p.CONFIG_MC_WIFI_CHANNEL) }) := by
  have e1 : (_mc_soft_ap_ssid p).take ((_mc_soft_ap_ssid p).length - 1)
      = p.CONFIG_MC_SOFT_AP_SSID := by
    simp [_mc_soft_ap_ssid]
  have e2 : (_mc_soft_ap_password p).take (_mc_soft_ap_password p).length
      = p.CONFIG_MC_SOFT_AP_PASSWORD ++ [0] := by
    simp [_mc_soft_ap_password]
  unfold _start_soft_ap_server
  rw [e1, e2, start_soft_ap_eq env p _ _ _ s hs (by simpa using hp) ok]
  rfl

theorem fallback_password_field (pw : List Nat) (h : pw.length + 1 < sizeof_password) :
    memcpy (zeros sizeof_password) (pw ++ [0]) (pw ++ [0]).length
      = pw ++ zeros (sizeof_password - pw.length) := by
  rw [memcpy_zeros]
  have e : sizeof_password - pw.length = (sizeof_password - (pw ++ [0]).length) + 1 := by
    simp only [List.length_append, List.length_singleton]; omega
  rw [e]
  simp [zeros, List.replicate_succ]

/-! ### Start-up -/

theorem initialize_wifi_eq (env : Env) (s : State) (ok : env.platformOk) :
    _initialize_wifi env s
      = some (mc_wifi_err_t.mc_wifi_ok,
          { wifi_event_group := s.wifi_event_group
            trace := s.trace ++ bootCalls.drop 2 }) := by
  unfold _initialize_wifi
  simp only [createNetif, registerHandler, ok.2, if_true, check_ok env ok, Call.isNvs,
    Option.bind_eq_bind, Option.some_bind]
  simp [record, bootCalls]

theorem init_eq (env : Env) (p : Platform) (s : State) (ok : env.platformOk) :
    mc_wifi_init env p s
      = (_try_connect_from_credentials env p
          { wifi_event_group := 0, trace := s.trace ++ bootCalls }).bind fun r =>
        if mc_wifi_err_t.mc_wifi_ok ≠ r.1 then
          (_start_soft_ap_server env p r.2).bind fun r => some r.2
        else some r.2 := by
  unfold mc_wifi_init
  simp only [check_ok env ok, Call.isNvs, Option.bind_eq_bind, Option.some_bind,
    initialize_wifi_eq env _ ok, not_true_eq_false, if_false]
  simp [record, xEventGroupCreate, bootCalls]

theorem nvs_get_blob_state (env : Env) (key : String) (cap : Nat) (s : State) :
    (nvs_get_blob env key cap s).2.2 = record (Call.nvs_get_blob key cap) s := by
  simp only [nvs_get_blob, invoke]
  split_ifs <;> rfl

theorem nvs_get_blob_status (env : Env) (key : String) (cap : Nat) (s : State)
    (h : env.esp s.trace (Call.nvs_get_blob key cap) ≠ ESP_OK) :
    (nvs_get_blob env key cap s).1 ≠ ESP_OK := by
  simp only [nvs_get_blob, invoke, if_neg h]
  exact h

theorem get_credentials_trace_any (env : Env) (a b : Nat) (s : State) :
    ∃ tl, (∀ c ∈ tl, c.isNvs = true) ∧
      (_get_credentials env a b s).2
        = { wifi_event_group := s.wifi_event_group, trace := s.trace ++ tl } := by
  simp only [_get_credentials, ASSERT_RET, ASSERT_BREAK, invoke]
  by_cases ho : env.esp s.trace (Call.nvs_open "wifi") = ESP_OK
  · simp only [ho, if_true]
    have h1 := nvs_get_blob_state env "ssid" a (record (Call.nvs_open "wifi") s)
    rcases hx : nvs_get_blob env "ssid" a (record (Call.nvs_open "wifi") s) with ⟨e1, v1, s1⟩
    rw [hx] at h1
    simp only [] at h1
    subst h1
    by_cases he1 : e1 = ESP_OK
    · simp only [he1, if_true]
      have h2 := nvs_get_blob_state env "password" b
        (record (Call.nvs_get_blob "ssid" a) (record (Call.nvs_open "wifi") s))
      rcases hy : nvs_get_blob env "password" b
        (record (Call.nvs_get_blob "ssid" a) (record (Call.nvs_open "wifi") s))
        with ⟨e2, v2, s2⟩
      rw [hy] at h2
      simp only [] at h2
      subst h2
      refine ⟨[Call.nvs_open "wifi", Call.nvs_get_blob "ssid" a,
        Call.nvs_get_blob "password" b, Call.nvs_close], by simp [Call.isNvs], ?_⟩
      split_ifs <;> simp [record]
    · simp only [he1, if_false]
      exact ⟨[Call.nvs_open "wifi", Call.nvs_get_blob "ssid" a, Call.nvs_close],
        by simp [Call.isNvs], by simp [record]⟩
  · simp only [ho, if_false]
    exact ⟨[Call.nvs_open "wifi"], by simp [Call.isNvs], by simp [record]⟩

theorem get_credentials_fails (env : Env) (s : State) (hfail : env.readFails) :
    (_get_credentials env sizeof_ssid sizeof_password s).1.1 ≠ ESP_OK := by
  simp only [_get_credentials, ASSERT_RET, ASSERT_BREAK, invoke]
  by_cases ho : env.esp s.trace (Call.nvs_open "wifi") = ESP_OK
  · simp only [ho, if_true]
    have h1 := nvs_get_blob_state env "ssid" sizeof_ssid (record (Call.nvs_open "wifi") s)
    have g1 := nvs_get_blob_status env "ssid" sizeof_ssid (record (Call.nvs_open "wifi") s)
    rcases hx : nvs_get_blob env "ssid" sizeof_ssid (record (Call.nvs_open "wifi") s)
      with ⟨e1, v1, s1⟩
    rw [hx] at h1 g1
    simp only [] at h1 g1
    subst h1
    by_cases he1 : e1 = ESP_OK
    · simp only [he1, if_true]
      have g2 := nvs_get_blob_status env "password" sizeof_password
        (record (Call.nvs_get_blob "ssid" sizeof_ssid) (record (Call.nvs_open "wifi") s))
      rcases hy : nvs_get_blob env "password" sizeof_password
        (record (Call.nvs_get_blob "ssid" sizeof_ssid) (record (Call.nvs_open "wifi") s))
        with ⟨e2, v2, s2⟩
      rw [hy] at g2
      simp only [] at g2
      rcases hfail with h | h | h
      · exact absurd ho (h _)
      · exact absurd he1 (g1 (h _))
      · have := g2 (h _)
        split_ifs <;> simpa using this
    · simp only [he1, if_false]
      exact he1
  · simp only [ho, if_false]
    exact ho

theorem get_credentials_ok (env : Env) (s : State) (hok : env.readOk) :
    _get_credentials env sizeof_ssid sizeof_password s
      = ((ESP_OK, env.blob (s.trace ++ [Call.nvs_open "wifi"]) "ssid",
            env.blob (s.trace ++ [Call.nvs_open "wifi",
              Call.nvs_get_blob "ssid" sizeof_ssid]) "password"),
          { wifi_event_group := s.wifi_event_group, trace := s.trace ++ readCalls }) := by
  obtain ⟨ho, hs, hp⟩ := hok
  simp [_get_credentials, ASSERT_RET, ASSERT_BREAK, nvs_get_blob, invoke, record, ho,
    (hs _).1, (hs _).2, (hp _).1, (hp _).2, readCalls]

theorem try_connect_fails (env : Env) (p : Platform) (s : State)
    (hf : (_get_credentials env sizeof_ssid sizeof_password s).1.1 ≠ ESP_OK) :
    ∃ tl, (∀ c ∈ tl, c.isNvs = true) ∧
      _try_connect_from_credentials env p s
        = some (mc_wifi_err_t.mc_wifi_credentials_not_found,
            { wifi_event_group := s.wifi_event_group, trace := s.trace ++ tl }) := by
  obtain ⟨tl, htl, he⟩ := get_credentials_trace_any env sizeof_ssid sizeof_password s
  refine ⟨tl, htl, ?_⟩
  unfold _try_connect_from_credentials
  rcases hx : _get_credentials env sizeof_ssid sizeof_password s with ⟨ret, s1⟩
  rw [hx] at he hf
  simp only [] at he hf
  have hf' : ¬ ESP_OK = ret.1 := fun h => hf h.symm
  simp only [if_neg hf', he]

theorem try_connect_ok (env : Env) (p : Platform) (s : State) (ok : env.platformOk)
    (hok : env.readOk) :
    ∃ ssid password k s',
      ssid.length ≤ sizeof_ssid ∧ password.length ≤ sizeof_password ∧
      _try_connect_from_credentials env p s = some (mc_wifi_err_t.mc_wifi_ok, s') ∧
      s'.trace = s.trace ++ readCalls ++ joinCalls ssid password
        ++ [Call.xEventGroupWaitBits (ticksOf p JOIN_TIMEOUT_MS)]
        ++ List.replicate k Call.esp_wifi_connect ∧
      ((∀ h, gotIp ∈ env.events h) → s'.connected) ∧
      ((∀ h, gotIp ∉ env.events h) → ¬ s.connected → ¬ s'.connected) := by
  have hg := get_credentials_ok env s hok
  have hs := (hok.2.1 (s.trace ++ [Call.nvs_open "wifi"])).2
  have hp := (hok.2.2 (s.trace ++ [Call.nvs_open "wifi",
    Call.nvs_get_blob "ssid" sizeof_ssid])).2
  obtain ⟨k, hk⟩ := wait_trace env (ticksOf p JOIN_TIMEOUT_MS)
    { wifi_event_group := s.wifi_event_group
      trace := s.trace ++ readCalls
        ++ joinCalls (env.blob (s.trace ++ [Call.nvs_open "wifi"]) "ssid")
            (env.blob (s.trace ++ [Call.nvs_open "wifi",
              Call.nvs_get_blob "ssid" sizeof_ssid]) "password") }
  refine ⟨_, _, k,
    (xEventGroupWaitBits env CONNECTED_BIT (ticksOf p JOIN_TIMEOUT_MS)
      { wifi_event_group := s.wifi_event_group
        trace := s.trace ++ readCalls
          ++ joinCalls (env.blob (s.trace ++ [Call.nvs_open "wifi"]) "ssid")
              (env.blob (s.trace ++ [Call.nvs_open "wifi",
                Call.nvs_get_blob "ssid" sizeof_ssid]) "password") }).2,
    hs, hp, ?_, ?_, ?_, ?_⟩
  · unfold _try_connect_from_credentials
    rw [hg]
    simp only [if_true]
    rw [join_internal_eq env p _ _ _ _ hs hp ok]
    rfl
  · rw [hk]
  · intro hev
    exact wait_gotIp env _ _ (hev _)
  · intro hev hclear
    exact wait_no_gotIp env _ _ (hev _) hclear

theorem init_no_credentials (env : Env) (p : Platform) (s : State) (ok : env.platformOk)
    (hs : p.CONFIG_MC_SOFT_AP_SSID.length < sizeof_ssid)
    (hp : p.CONFIG_MC_SOFT_AP_PASSWORD.length + 1 < sizeof_password)
    (hf : (_get_credentials env sizeof_ssid sizeof_password
      { wifi_event_group := 0, trace := s.trace ++ bootCalls }).1.1 ≠ ESP_OK) :
    ∃ tl, (∀ c ∈ tl, c.isNvs = true) ∧
      mc_wifi_init env p s
        = some
            { wifi_event_group := 0
              trace := s.trace ++ (bootCalls ++ tl)
                ++ apCalls (apConfig p p.CONFIG_MC_SOFT_AP_SSID
                    (p.CONFIG_MC_SOFT_AP_PASSWORD ++ [0]) p.CONFIG_MC_WIFI_CHANNEL) } := by
  obtain ⟨tl, htl, he⟩ := try_connect_fails env p
    { wifi_event_group := 0, trace := s.trace ++ bootCalls } hf
  refine ⟨tl, htl, ?_⟩
  rw [init_eq env p s ok, he]
  simp only [Option.some_bind, ne_eq, reduceCtorEq, not_false_eq_true, if_true]
  rw [start_soft_ap_server_eq env p _ hs hp ok]
  simp only [Option.some_bind, List.append_assoc]

theorem get_credentials_readable (env : Env) (s : State) (hr : env.readableAt s.trace) :
    _get_credentials env sizeof_ssid sizeof_password s
      = ((ESP_OK, env.blob (s.trace ++ [Call.nvs_open "wifi"]) "ssid",
            env.blob (s.trace ++ [Call.nvs_open "wifi",
              Call.nvs_get_blob "ssid" 32]) "password"),
          { wifi_event_group := s.wifi_event_group, trace := s.trace ++ readCalls }) := by
  obtain ⟨ho, h1, l1, h2, l2⟩ := hr
  simp [_get_credentials, ASSERT_RET, ASSERT_BREAK, nvs_get_blob, invoke, record, ho,
    h1, l1, h2, l2, readCalls, sizeof_ssid, sizeof_password]

theorem get_credentials_unreadable (env : Env) (s : State) (hr : ¬ env.readableAt s.trace) :
    (_get_credentials env sizeof_ssid sizeof_password s).1.1 ≠ ESP_OK := by
  have hlen : ESP_ERR_NVS_INVALID_LENGTH ≠ ESP_OK := by decide
  by_cases ho : env.esp s.trace (Call.nvs_open "wifi") = ESP_OK
  · by_cases h1 : env.esp (s.trace ++ [Call.nvs_open "wifi"])
        (Call.nvs_get_blob "ssid" 32) = ESP_OK
    · by_cases l1 : (env.blob (s.trace ++ [Call.nvs_open "wifi"]) "ssid").length ≤ 32
      · by_cases h2 : env.esp (s.trace ++ [Call.nvs_open "wifi",
            Call.nvs_get_blob "ssid" 32]) (Call.nvs_get_blob "password" 64) = ESP_OK
        · by_cases l2 : (env.blob (s.trace ++ [Call.nvs_open "wifi",
              Call.nvs_get_blob "ssid" 32]) "password").length ≤ 64
          · exact absurd ⟨ho, h1, l1, h2, l2⟩ hr
          · simp [_get_credentials, ASSERT_RET, ASSERT_BREAK, nvs_get_blob, invoke, record,
              ho, h1, l1, h2, l2, sizeof_ssid, sizeof_password, hlen]
        · simp [_get_credentials, ASSERT_RET, ASSERT_BREAK, nvs_get_blob, invoke, record,
            ho, h1, l1, h2, sizeof_ssid, sizeof_password]
      · simp [_get_credentials, ASSERT_RET, ASSERT_BREAK, nvs_get_blob, invoke, record,
          ho, h1, l1, sizeof_ssid, sizeof_password, hlen]
    · simp [_get_credentials, ASSERT_RET, ASSERT_BREAK, nvs_get_blob, invoke, record,
        ho, h1, sizeof_ssid, sizeof_password]
  · simp [_get_credentials, ASSERT_RET, ASSERT_BREAK, nvs_get_blob, invoke, record, ho]

theorem init_readable (env : Env) (p : Platform) (s : State) (ok : env.platformOk)
    (hr : env.readableAt (s.trace ++ bootCalls)) :
    ∃ k s', mc_wifi_init env p s = some s' ∧
      s'.trace = startupWaitHistory env p s ++ List.replicate k Call.esp_wifi_connect ∧
      (s'.connected ↔ gotIp ∈ env.events (startupWaitHistory env p s)) := by
  have hg := get_credentials_readable env
    { wifi_event_group := 0, trace := s.trace ++ bootCalls } hr
  have hs : (env.blob (s.trace ++ bootCalls ++ [Call.nvs_open "wifi"]) "ssid").length
      ≤ sizeof_ssid := hr.2.2.1
  have hp : (env.blob (s.trace ++ bootCalls
      ++ [Call.nvs_open "wifi", Call.nvs_get_blob "ssid" 32]) "password").length
      ≤ sizeof_password := hr.2.2.2.2
  have hclear : ¬ State.connected
      { wifi_event_group := 0
        trace := s.trace ++ bootCalls ++ readCalls
          ++ joinCalls (env.blob (s.trace ++ bootCalls ++ [Call.nvs_open "wifi"]) "ssid")
              (env.blob (s.trace ++ bootCalls
                ++ [Call.nvs_open "wifi", Call.nvs_get_blob "ssid" 32]) "password") } := by
    simp [State.connected, CONNECTED_BIT]
  obtain ⟨k, hk⟩ := wait_trace env (10000 / p.portTICK_PERIOD_MS)
    { wifi_event_group := 0
      trace := s.trace ++ bootCalls ++ readCalls
        ++ joinCalls (env.blob (s.trace ++ bootCalls ++ [Call.nvs_open "wifi"]) "ssid")
            (env.blob (s.trace ++ bootCalls
              ++ [Call.nvs_open "wifi", Call.nvs_get_blob "ssid" 32]) "password") }
  refine ⟨k, (xEventGroupWaitBits env CONNECTED_BIT (10000 / p.portTICK_PERIOD_MS)
    { wifi_event_group := 0
      trace := s.trace ++ bootCalls ++ readCalls
        ++ joinCalls (env.blob (s.trace ++ bootCalls ++ [Call.nvs_open "wifi"]) "ssid")
            (env.blob (s.trace ++ bootCalls
              ++ [Call.nvs_open "wifi", Call.nvs_get_blob "ssid" 32]) "password") }).2,
    ?_, ?_, ?_⟩
  · rw [init_eq env p s ok]
    unfold _try_connect_from_credentials
    rw [hg]
    simp only [if_true]
    rw [join_internal_eq env p _ _ _ _ hs hp ok]
    simp only [Option.some_bind, ne_eq, not_true_eq_false, if_false]
    rfl
  · rw [hk]; rfl
  · constructor
    · intro hc
      by_contra hev
      refine wait_no_gotIp env _ _ ?_ hclear hc
      exact hev
    · intro hev
      exact wait_gotIp env _ _ hev

theorem init_with_credentials (env : Env) (p : Platform) (s : State) (ok : env.platformOk)
    (hok : env.readOk) :
    ∃ ssid password k s',
      ssid.length ≤ sizeof_ssid ∧ password.length ≤ sizeof_password ∧
      mc_wifi_init env p s = some s' ∧
      s'.trace = s.trace
        ++ (bootCalls ++ readCalls ++ joinCalls ssid password
          ++ [Call.xEventGroupWaitBits (ticksOf p JOIN_TIMEOUT_MS)]
          ++ List.replicate k Call.esp_wifi_connect) ∧
      ((∀ h, gotIp ∈ env.events h) → s'.connected) ∧
      ((∀ h, gotIp ∉ env.events h) → ¬ s'.connected) := by
  obtain ⟨ssid, password, k, s', hs, hp, he, ht, hyes, hno⟩ := try_connect_ok env p
    { wifi_event_group := 0, trace := s.trace ++ bootCalls } ok hok
  refine ⟨ssid, password, k, s', hs, hp, ?_, ?_, hyes,
    fun hev => hno hev (by simp [State.connected, CONNECTED_BIT])⟩
  · rw [init_eq env p s ok, he]
    simp
  · rw [ht]; simp only [List.append_assoc]

theorem modeCalls_append (a b : List Call) :
    modeCalls (a ++ b) = modeCalls a ++ modeCalls b := by
  simp [modeCalls]

theorem modeCalls_of_nvs (tl : List Call) (h : ∀ c ∈ tl, c.isNvs = true) :
    modeCalls tl = [] := by
  induction tl with
  | nil => rfl
  | cons c cs ih =>
    have hc : c.isNvs = true := h c (List.mem_cons_self _ _)
    have hcs : modeCalls cs = [] := ih fun d hd => h d (List.mem_cons_of_mem _ hd)
    unfold modeCalls at hcs ⊢
    cases c <;> simp_all [Call.isNvs, Call.mode]

theorem modeCalls_replicate_connect (k : Nat) :
    modeCalls (List.replicate k Call.esp_wifi_connect) = [] := by
  simp [modeCalls, Call.mode]

theorem connectCalls_append (a b : List Call) :
    connectCalls (a ++ b) = connectCalls a + connectCalls b := by
  simp [connectCalls]

theorem connectCalls_of_nvs (tl : List Call) (h : ∀ c ∈ tl, c.isNvs = true) :
    connectCalls tl = 0 := by
  unfold connectCalls
  rw [List.count_eq_zero]
  intro hmem
  have := h _ hmem
  simp [Call.isNvs] at this

theorem isAp_bootCalls : ∀ c ∈ bootCalls, c.isAp = false := by
  decide

theorem isAp_readCalls : ∀ c ∈ readCalls, c.isAp = false := by
  decide

theorem isAp_station_segment (ssid password : List Nat) (t k : Nat) :
    ∀ c ∈ bootCalls ++ readCalls ++ joinCalls ssid password ++ [Call.xEventGroupWaitBits t]
        ++ List.replicate k Call.esp_wifi_connect, c.isAp = false := by
  intro c hc
  simp only [List.mem_append] at hc
  rcases hc with (((hb | hr) | hj) | hw) | hk
  · exact isAp_bootCalls c hb
  · exact isAp_readCalls c hr
  · simp only [joinCalls, List.mem_cons, List.mem_singleton, List.not_mem_nil, or_false] at hj
    rcases hj with h | h | h | h <;> rw [h] <;> rfl
  · rw [List.mem_singleton.1 hw]; rfl
  · rw [List.eq_of_mem_replicate hk]; rfl

theorem modeCalls_station_segment (ssid password : List Nat) (t k : Nat) :
    modeCalls (bootCalls ++ readCalls ++ joinCalls ssid password
      ++ [Call.xEventGroupWaitBits t] ++ List.replicate k Call.esp_wifi_connect)
      = [wifi_mode_t.WIFI_MODE_NULL, wifi_mode_t.WIFI_MODE_STA] := by
  rw [modeCalls_append, modeCalls_replicate_connect]
  rfl

theorem modeCalls_fallback_segment (tl : List Call) (h : ∀ c ∈ tl, c.isNvs = true)
    (cfg : wifi_ap_config_t) :
    modeCalls (bootCalls ++ tl ++ apCalls cfg)
      = [wifi_mode_t.WIFI_MODE_NULL, wifi_mode_t.WIFI_MODE_AP] := by
  rw [modeCalls_append, modeCalls_append, modeCalls_of_nvs tl h]
  rfl

theorem connectCalls_fallback_segment (tl : List Call) (h : ∀ c ∈ tl, c.isNvs = true)
    (cfg : wifi_ap_config_t) :
    connectCalls (bootCalls ++ tl ++ apCalls cfg) = 0 := by
  rw [connectCalls_append, connectCalls_append, connectCalls_of_nvs tl h]
  rfl

/-! ### Sample environments never abort -/

theorem quietEnv_ok : quietEnv.platformOk :=
  ⟨fun _ _ _ => rfl, fun _ _ => rfl⟩

theorem connectingEnv_ok : connectingEnv.platformOk :=
  ⟨fun _ _ _ => rfl, fun _ _ => rfl⟩

theorem storedEnv_ok : storedEnv.platformOk :=
  ⟨fun _ _ _ => rfl, fun _ _ => rfl⟩

theorem closedStoreQuietEnv_ok : closedStoreQuietEnv.platformOk :=
  ⟨fun _ c hc => (by cases c <;> first | rfl | cases hc), fun _ _ => rfl⟩

/-! ### Claims about `mc_wifi_join` -/

/-- C1, counterexample.  The credential store cannot be opened and a
got-address event arrives during the wait: `mc_wifi_join` returns `mc_wifi_ok`
and the only store call is the failed `nvs_open`; nothing is written under
"ssid" or "password". -/
theorem mc_wifi_join_closed_store_writes_nothing :
    gotIp ∈ closedStoreEnv.events
        (waitHistory samplePlatform [104, 111, 109, 101] [112, 119] 0 freshState) ∧
    mc_wifi_join closedStoreEnv samplePlatform [104, 111, 109, 101] [112, 119] 0 freshState
      = some (mc_wifi_err_t.mc_wifi_ok,
          { wifi_event_group := 1
            trace := joinCalls [104, 111, 109, 101] [112, 119]
              ++ [Call.xEventGroupWaitBits 1000, Call.nvs_open "wifi"] }) ∧
    blobWrites "ssid" (joinCalls [104, 111, 109, 101] [112, 119]
      ++ [Call.xEventGroupWaitBits 1000, Call.nvs_open "wifi"]) = [] ∧
    blobWrites "password" (joinCalls [104, 111, 109, 101] [112, 119]
      ++ [Call.xEventGroupWaitBits 1000, Call.nvs_open "wifi"]) = [] := by
  refine ⟨?_, ?_, ?_, ?_⟩
  · simp [closedStoreEnv]
  · rfl
  · rfl
  · rfl

/-- C1 (amended).  For every ssid of at most 32 bytes and password of at most
64 bytes, on a platform that does not abort the firmware: if a got-address
event arrives during the wait of this join, and the credential store opens and
accepts the "ssid" write, then `mc_wifi_join` returns `mc_wifi_ok` with the
connected bit set, and the calls it adds to the trace are station-side calls
without any store call, followed by `nvs_open "wifi"`, one write of "ssid" and
one write of "password" carrying the bytes and lengths passed to the join, then
either `nvs_close` or `nvs_commit`, `nvs_close`.  So each blob is written
exactly once. -/
theorem mc_wifi_join_persists_on_success (env : Env) (p : Platform)
    (ssid password : List Nat) (timeout : Int) (s : State)
    (hs : ssid.length ≤ 32) (hp : password.length ≤ 64)
    (ok : env.platformOk)
    (hev : gotIp ∈ env.events (waitHistory p ssid password timeout s))
    (hopen : ∀ h, env.esp h (Call.nvs_open "wifi") = ESP_OK)
    (hssid : ∀ h, env.esp h (Call.nvs_set_blob "ssid" ssid ssid.length) = ESP_OK) :
    ∃ s' mid rest,
      mc_wifi_join env p ssid password timeout s = some (mc_wifi_err_t.mc_wifi_ok, s') ∧
      s'.connected ∧
      s'.trace = s.trace ++ mid
        ++ [Call.nvs_open "wifi",
            Call.nvs_set_blob "ssid" ssid ssid.length,
            Call.nvs_set_blob "password" password password.length]
        ++ rest ∧
      (∀ c ∈ mid, c.isNvs = false) ∧
      (rest = [Call.nvs_close] ∨ rest = [Call.nvs_commit, Call.nvs_close]) ∧
      blobWrites "ssid" (mid
        ++ [Call.nvs_open "wifi",
            Call.nvs_set_blob "ssid" ssid ssid.length,
            Call.nvs_set_blob "password" password password.length]
        ++ rest) = [(ssid, ssid.length)] ∧
      blobWrites "password" (mid
        ++ [Call.nvs_open "wifi",
            Call.nvs_set_blob "ssid" ssid ssid.length,
            Call.nvs_set_blob "password" password password.length]
        ++ rest) = [(password, password.length)] := by
  have hc := wait_gotIp env (ticksOf p (effectiveTimeout timeout))
    { wifi_event_group := s.wifi_event_group, trace := s.trace ++ joinCalls ssid password } hev
  obtain ⟨k, rest, hr, he⟩ := join_connected env p ssid password timeout s hs hp ok hc hopen hssid
  have hmid := isNvs_join_segment ssid password (ticksOf p (effectiveTimeout timeout)) k
  refine ⟨_, _, rest, he, hc, rfl, hmid, hr, ?_, ?_⟩
  · rw [blobWrites_append, blobWrites_append, blobWrites_of_no_nvs _ _ hmid,
      blobWrites_store_tail _ _ hr]
    rfl
  · rw [blobWrites_append, blobWrites_append, blobWrites_of_no_nvs _ _ hmid,
      blobWrites_store_tail _ _ hr]
    rfl

/-- C1 (amended), witness: SSID "home", password "hunter22", default timeout,
on a platform where everything succeeds and a got-address event arrives. -/
theorem mc_wifi_join_persists_on_success_witness :
    ∃ s' mid rest,
      mc_wifi_join connectingEnv samplePlatform [104, 111, 109, 101]
        [104, 117, 110, 116, 101, 114, 50, 50] 0 freshState
        = some (mc_wifi_err_t.mc_wifi_ok, s') ∧
      s'.connected ∧
      s'.trace = freshState.trace ++ mid
        ++ [Call.nvs_open "wifi",
            Call.nvs_set_blob "ssid" [104, 111, 109, 101] [104, 111, 109, 101].length,
            Call.nvs_set_blob "password" [104, 117, 110, 116, 101, 114, 50, 50]
              [104, 117, 110, 116, 101, 114, 50, 50].length]
        ++ rest ∧
      (∀ c ∈ mid, c.isNvs = false) ∧
      (rest = [Call.nvs_close] ∨ rest = [Call.nvs_commit, Call.nvs_close]) ∧
      blobWrites "ssid" (mid
        ++ [Call.nvs_open "wifi",
            Call.nvs_set_blob "ssid" [104, 111, 109, 101] [104, 111, 109, 101].length,
            Call.nvs_set_blob "password" [104, 117, 110, 116, 101, 114, 50, 50]
              [104, 117, 110, 116, 101, 114, 50, 50].length]
        ++ rest) = [([104, 111, 109, 101], [104, 111, 109, 101].length)] ∧
      blobWrites "password" (mid
        ++ [Call.nvs_open "wifi",
            Call.nvs_set_blob "ssid" [104, 111, 109, 101] [104, 111, 109, 101].length,
            Call.nvs_set_blob "password" [104, 117, 110, 116, 101, 114, 50, 50]
              [104, 117, 110, 116, 101, 114, 50, 50].length]
        ++ rest) = [([104, 117, 110, 116, 101, 114, 50, 50],
          [104, 117, 110, 116, 101, 114, 50, 50].length)] :=
  mc_wifi_join_persists_on_success connectingEnv samplePlatform [104, 111, 109, 101]
    [104, 117, 110, 116, 101, 114, 50, 50] 0 freshState (by decide) (by decide)
    connectingEnv_ok (by simp [connectingEnv]) (fun _ => rfl) (fun _ => rfl)

/-- C2, counterexample.  The connected bit is set on entry and no event arrives:
`mc_wifi_join` returns `mc_wifi_ok` and writes both blobs, although the
network stack never signalled success during the call. -/
theorem mc_wifi_join_stale_bit_no_event_returns_ok :
    quietEnv.events
        (waitHistory samplePlatform [104, 111, 109, 101] [112, 119] 50
          { wifi_event_group := 1, trace := [] }) = [] ∧
    mc_wifi_join quietEnv samplePlatform [104, 111, 109, 101] [112, 119] 50
        { wifi_event_group := 1, trace := [] }
      = some (mc_wifi_err_t.mc_wifi_ok,
          { wifi_event_group := 1
            trace := joinCalls [104, 111, 109, 101] [112, 119]
              ++ [Call.xEventGroupWaitBits 5]
              ++ storeCalls [104, 111, 109, 101] [112, 119] }) ∧
    blobWrites "ssid" (joinCalls [104, 111, 109, 101] [112, 119]
      ++ [Call.xEventGroupWaitBits 5]
      ++ storeCalls [104, 111, 109, 101] [112, 119]) = [([104, 111, 109, 101], 4)] := by
  refine ⟨rfl, ?_, ?_⟩
  · rfl
  · rfl

/-- C2 (amended).  For every timeout, every ssid of at most 32 bytes, password
of at most 64 bytes and every starting state whose connected bit is clear, on
a platform that does not abort the firmware: if no got-address event arrives
during the wait of this join, `mc_wifi_join` returns `mc_wifi_join_failed`, the
connected bit is still clear, and none of the calls it adds to the trace is a
credential-store call (no open, no write, no commit). -/
theorem mc_wifi_join_fails_without_success (env : Env) (p : Platform)
    (ssid password : List Nat) (timeout : Int) (s : State)
    (hs : ssid.length ≤ 32) (hp : password.length ≤ 64)
    (ok : env.platformOk)
    (hclear : ¬ s.connected)
    (hev : gotIp ∉ env.events (waitHistory p ssid password timeout s)) :
    ∃ s' new,
      mc_wifi_join env p ssid password timeout s
        = some (mc_wifi_err_t.mc_wifi_join_failed, s') ∧
      ¬ s'.connected ∧
      s'.trace = s.trace ++ new ∧
      (∀ c ∈ new, c.isNvs = false) ∧
      blobWrites "ssid" new = [] ∧ blobWrites "password" new = [] := by
  have hc := wait_no_gotIp env (ticksOf p (effectiveTimeout timeout))
    { wifi_event_group := s.wifi_event_group, trace := s.trace ++ joinCalls ssid password }
    hev hclear
  obtain ⟨k, s', he, hn, ht⟩ := join_not_connected env p ssid password timeout s hs hp ok hc
  have hmid := isNvs_join_segment ssid password (ticksOf p (effectiveTimeout timeout)) k
  exact ⟨s', _, he, hn, ht, hmid, blobWrites_of_no_nvs _ _ hmid,
    blobWrites_of_no_nvs _ _ hmid⟩

/-- C2 (amended), witness: a 50 ms join on a platform where no event ever
arrives, entered with the connected bit clear. -/
theorem mc_wifi_join_fails_without_success_witness :
    ∃ s' new,
      mc_wifi_join quietEnv samplePlatform [104, 111, 109, 101] [112, 119] 50 freshState
        = some (mc_wifi_err_t.mc_wifi_join_failed, s') ∧
      ¬ s'.connected ∧
      s'.trace = freshState.trace ++ new ∧
      (∀ c ∈ new, c.isNvs = false) ∧
      blobWrites "ssid" new = [] ∧ blobWrites "password" new = [] :=
  mc_wifi_join_fails_without_success quietEnv samplePlatform [104, 111, 109, 101] [112, 119]
    50 freshState (by decide) (by decide) quietEnv_ok (by decide) (by simp [quietEnv])

/-- C7.  `mc_wifi_join` with timeout 0 is the same computation as with timeout
10000: same result, same final state, same trace.  Whenever the call returns
(sizes within the station buffers, platform not aborting), it makes exactly one
call of the wait primitive.  For timeout 0 its tick argument is
`10000 / portTICK_PERIOD_MS`.  For every non-zero timeout it is the given value,
converted to 32-bit unsigned, divided by `portTICK_PERIOD_MS`; so for a
positive `int` it is the given number of milliseconds divided by the tick
period. -/
theorem mc_wifi_join_default_timeout (env : Env) (p : Platform)
    (ssid password : List Nat) (s : State) :
    mc_wifi_join env p ssid password 0 s = mc_wifi_join env p ssid password 10000 s ∧
    ∀ timeout : Int, ssid.length ≤ 32 → password.length ≤ 64 → env.platformOk →
      ∃ r s' new,
        mc_wifi_join env p ssid password timeout s = some (r, s') ∧
        s'.trace = s.trace ++ new ∧
        (timeout = 0 → waitCalls new = [10000 / p.portTICK_PERIOD_MS]) ∧
        (timeout ≠ 0 →
          waitCalls new = [(timeout % 2 ^ 32).toNat / p.portTICK_PERIOD_MS]) ∧
        (0 < timeout → timeout < 2 ^ 31 →
          waitCalls new = [timeout.toNat / p.portTICK_PERIOD_MS]) := by
  refine ⟨rfl, ?_⟩
  intro timeout hs hp ok
  obtain ⟨r, s', k, tl, he, htl, ht⟩ := join_trace_any env p ssid password timeout s hs hp ok
  have hw : waitCalls (joinCalls ssid password
      ++ [Call.xEventGroupWaitBits (ticksOf p (effectiveTimeout timeout))]
      ++ List.replicate k Call.esp_wifi_connect ++ tl)
      = [ticksOf p (effectiveTimeout timeout)] := by
    rw [waitCalls_append, waitCalls_join_segment, waitCalls_of_nvs tl htl]
    rfl
  refine ⟨r, s', joinCalls ssid password
      ++ [Call.xEventGroupWaitBits (ticksOf p (effectiveTimeout timeout))]
      ++ List.replicate k Call.esp_wifi_connect ++ tl, he, ?_, ?_, ?_, ?_⟩
  · rw [ht]; simp only [List.append_assoc]
  · intro h0
    rw [hw, h0]; rfl
  · intro h0
    rw [hw, effectiveTimeout, if_neg h0]
    rfl
  · intro hpos hlt
    have h0 : timeout ≠ 0 := by omega
    have hmod : timeout % 2 ^ 32 = timeout := Int.emod_eq_of_lt (by omega) (by omega)
    rw [hw, effectiveTimeout, if_neg h0]
    simp only [ticksOf, hmod]

/-- C7, witness: on 10 ms ticks a join with the default timeout makes one wait
of 1000 ticks, and a join with timeout 50 makes one wait of 5 ticks. -/
theorem mc_wifi_join_default_timeout_witness :
    (∃ r s' new,
      mc_wifi_join quietEnv samplePlatform [104, 111, 109, 101] [112, 119] 0 freshState
        = some (r, s') ∧
      s'.trace = freshState.trace ++ new ∧
      waitCalls new = [1000]) ∧
    (∃ r s' new,
      mc_wifi_join quietEnv samplePlatform [104, 111, 109, 101] [112, 119] 50 freshState
        = some (r, s') ∧
      s'.trace = freshState.trace ++ new ∧
      waitCalls new = [5]) := by
  constructor
  · obtain ⟨r, s', new, h1, h2, h3, _, _⟩ :=
      (mc_wifi_join_default_timeout quietEnv samplePlatform [104, 111, 109, 101] [112, 119]
        freshState).2 0 (by decide) (by decide) quietEnv_ok
    exact ⟨r, s', new, h1, h2, h3 rfl⟩
  · obtain ⟨r, s', new, h1, h2, _, h4, _⟩ :=
      (mc_wifi_join_default_timeout quietEnv samplePlatform [104, 111, 109, 101] [112, 119]
        freshState).2 50 (by decide) (by decide) quietEnv_ok
    exact ⟨r, s', new, h1, h2, h4 (by decide)⟩

/-- C10, counterexample.  The connected bit is set on entry, no event arrives,
and the credential store refuses writes: `mc_wifi_join` returns `mc_wifi_ok`,
the "ssid" write is attempted and fails, and the password is never written. -/
theorem mc_wifi_join_stale_bit_full_store :
    fullStoreEnv.events
        (waitHistory samplePlatform [104, 111, 109, 101] [112, 119] 0
          { wifi_event_group := 1, trace := [] }) = [] ∧
    mc_wifi_join fullStoreEnv samplePlatform [104, 111, 109, 101] [112, 119] 0
        { wifi_event_group := 1, trace := [] }
      = some (mc_wifi_err_t.mc_wifi_ok,
          { wifi_event_group := 1
            trace := joinCalls [104, 111, 109, 101] [112, 119]
              ++ [Call.xEventGroupWaitBits 1000, Call.nvs_open "wifi",
                  Call.nvs_set_blob "ssid" [104, 111, 109, 101] 4, Call.nvs_close] }) ∧
    fullStoreEnv.esp (joinCalls [104, 111, 109, 101] [112, 119]
        ++ [Call.xEventGroupWaitBits 1000, Call.nvs_open "wifi"])
      (Call.nvs_set_blob "ssid" [104, 111, 109, 101] 4) = ESP_ERR_NVS_NOT_ENOUGH_SPACE ∧
    blobWrites "password" (joinCalls [104, 111, 109, 101] [112, 119]
      ++ [Call.xEventGroupWaitBits 1000, Call.nvs_open "wifi",
          Call.nvs_set_blob "ssid" [104, 111, 109, 101] 4, Call.nvs_close]) = [] := by
  refine ⟨rfl, ?_, rfl, ?_⟩
  · rfl
  · rfl

/-- C10 (amended).  `mc_wifi_join` never clears the connected bit before it
waits: for every ssid of at most 32 bytes, password of at most 64 bytes and
timeout, on a platform that does not abort the firmware, if the connected bit
is already set on entry then, whatever the events of the environment, the wait
returns at once, `mc_wifi_join` returns `mc_wifi_ok` with the event group
unchanged, and, when the credential store opens and accepts the "ssid" write,
it writes the newly supplied ssid and password: the trace grows by exactly the
station calls, one wait, `nvs_open "wifi"`, the two writes, and then
`nvs_close` or `nvs_commit`, `nvs_close`. -/
theorem mc_wifi_join_stale_connected_bit (env : Env) (p : Platform)
    (ssid password : List Nat) (timeout : Int) (s : State)
    (hs : ssid.length ≤ 32) (hp : password.length ≤ 64)
    (ok : env.platformOk)
    (hset : s.connected)
    (hopen : ∀ h, env.esp h (Call.nvs_open "wifi") = ESP_OK)
    (hssid : ∀ h, env.esp h (Call.nvs_set_blob "ssid" ssid ssid.length) = ESP_OK) :
    ∃ rest, (rest = [Call.nvs_close] ∨ rest = [Call.nvs_commit, Call.nvs_close]) ∧
      mc_wifi_join env p ssid password timeout s
        = some (mc_wifi_err_t.mc_wifi_ok,
            { wifi_event_group := s.wifi_event_group
              trace := s.trace ++ joinCalls ssid password
                ++ [Call.xEventGroupWaitBits (ticksOf p (effectiveTimeout timeout))]
                ++ [Call.nvs_open "wifi",
                    Call.nvs_set_blob "ssid" ssid ssid.length,
                    Call.nvs_set_blob "password" password password.length]
                ++ rest }) := by
  have hset' : State.connected
      { wifi_event_group := s.wifi_event_group
        trace := s.trace ++ joinCalls ssid password } := hset
  have hw := wait_already env (ticksOf p (effectiveTimeout timeout)) _ hset'
  have hc : (xEventGroupWaitBits env CONNECTED_BIT (ticksOf p (effectiveTimeout timeout))
      { wifi_event_group := s.wifi_event_group
        trace := s.trace ++ joinCalls ssid password }).2.connected := by
    rw [hw]; exact hset
  obtain ⟨rest, hr, he⟩ := store_trace env ssid password
    { wifi_event_group := s.wifi_event_group
      trace := s.trace ++ joinCalls ssid password
        ++ [Call.xEventGroupWaitBits (ticksOf p (effectiveTimeout timeout))] }
    (hopen _) (hssid _)
  refine ⟨rest, hr, ?_⟩
  rw [join_eq env p ssid password timeout s hs hp ok, if_pos hc, hw, he]

/-- C10 (amended), witness: the connected bit is left over from an earlier
connection, nothing arrives, and the join of a new network returns
`mc_wifi_ok` and stores the new credentials. -/
theorem mc_wifi_join_stale_connected_bit_witness :
    ∃ rest, (rest = [Call.nvs_close] ∨ rest = [Call.nvs_commit, Call.nvs_close]) ∧
      mc_wifi_join quietEnv samplePlatform [110, 101, 119] [112, 119] 0
          { wifi_event_group := 1, trace := [] }
        = some (mc_wifi_err_t.mc_wifi_ok,
            { wifi_event_group := 1
              trace := [] ++ joinCalls [110, 101, 119] [112, 119]
                ++ [Call.xEventGroupWaitBits
                      (ticksOf samplePlatform (effectiveTimeout 0))]
                ++ [Call.nvs_open "wifi",
                    Call.nvs_set_blob "ssid" [110, 101, 119] [110, 101, 119].length,
                    Call.nvs_set_blob "password" [112, 119] [112, 119].length]
                ++ rest }) :=
  mc_wifi_join_stale_connected_bit quietEnv samplePlatform [110, 101, 119] [112, 119] 0
    { wifi_event_group := 1, trace := [] } (by decide) (by decide) quietEnv_ok (by decide)
    (fun _ => rfl) (fun _ => rfl)

/-! ### Claims about the access point -/

/-- C3, counterexample.  An SSID of 32 bytes, or a password of 64 bytes, makes
`mc_wifi_start_soft_ap` abort on its assertion instead of returning
`mc_wifi_ok`; and the requested channel 256 is applied as channel 0, because
the channel field of the configuration is a `uint8_t`. -/
theorem mc_wifi_start_soft_ap_rejects_inputs :
    mc_wifi_start_soft_ap quietEnv samplePlatform (List.replicate 32 65) [] 6 freshState
      = none ∧
    mc_wifi_start_soft_ap quietEnv samplePlatform [109, 99] (List.replicate 64 49) 6
        freshState = none ∧
    mc_wifi_start_soft_ap quietEnv samplePlatform [109, 99] [] 256 freshState
      = some (mc_wifi_err_t.mc_wifi_ok,
          { wifi_event_group := 0
            trace := apCalls (apConfig samplePlatform [109, 99] [] 256) }) ∧
    (apConfig samplePlatform [109, 99] [] 256).channel = 0 := by
  refine ⟨?_, ?_, ?_, ?_⟩
  · rfl
  · rfl
  · rfl
  · rfl

/-- C3 (amended).  For every ssid shorter than 32 bytes, every password shorter
than 64 bytes and every channel from 0 to 255, on a platform that does not
abort the firmware, `mc_wifi_start_soft_ap` returns `mc_wifi_ok` after exactly
three calls: set mode access-point, apply a configuration on the access-point
interface, start.  The configuration has open authentication when the password
length is 0 and WPA/WPA2-PSK when it is greater than 0, its channel is the
requested channel in both cases, and it carries the ssid, its length and the
password. -/
theorem mc_wifi_start_soft_ap_config (env : Env) (p : Platform)
    (ssid password : List Nat) (channel : Int) (s : State)
    (hs : ssid.length < 32) (hp : password.length < 64)
    (hc0 : 0 ≤ channel) (hc1 : channel < 256)
    (ok : env.platformOk) :
    ∃ cfg : wifi_ap_config_t,
      mc_wifi_start_soft_ap env p ssid password channel s
        = some (mc_wifi_err_t.mc_wifi_ok,
            { wifi_event_group := s.wifi_event_group
              trace := s.trace
                ++ [Call.esp_wifi_set_mode wifi_mode_t.WIFI_MODE_AP,
                    Call.esp_wifi_set_config wifi_interface_t.WIFI_IF_AP (wifi_config_t.ap cfg),
                    Call.esp_wifi_start] }) ∧
      (password.length = 0 → cfg.authmode = wifi_auth_mode_t.WIFI_AUTH_OPEN) ∧
      (0 < password.length → cfg.authmode = wifi_auth_mode_t.WIFI_AUTH_WPA_WPA2_PSK) ∧
      (cfg.channel : Int) = channel ∧
      cfg.ssid_len = ssid.length ∧
      cfg.ssid = ssid ++ zeros (32 - ssid.length) ∧
      cfg.password = password ++ zeros (64 - password.length) := by
  refine ⟨apConfig p ssid password channel,
    start_soft_ap_eq env p ssid password channel s hs hp ok, ?_, ?_, ?_, ?_, ?_, ?_⟩
  · intro h0
    simp [apConfig, h0]
  · intro h0
    have : password.length ≠ 0 := by omega
    simp [apConfig, this]
  · simp only [apConfig]
    rw [Int.toNat_of_nonneg (Int.emod_nonneg _ (by decide))]
    exact Int.emod_eq_of_lt hc0 hc1
  · simp only [apConfig]
    omega
  · exact memcpy_zeros _ _
  · exact memcpy_zeros _ _

/-- C3 (amended), witness: SSID "mc", an empty password and channel 11. -/
theorem mc_wifi_start_soft_ap_config_witness :
    ∃ cfg : wifi_ap_config_t,
      mc_wifi_start_soft_ap quietEnv samplePlatform [109, 99] [] 11 freshState
        = some (mc_wifi_err_t.mc_wifi_ok,
            { wifi_event_group := freshState.wifi_event_group
              trace := freshState.trace
                ++ [Call.esp_wifi_set_mode wifi_mode_t.WIFI_MODE_AP,
                    Call.esp_wifi_set_config wifi_interface_t.WIFI_IF_AP (wifi_config_t.ap cfg),
                    Call.esp_wifi_start] }) ∧
      (([] : List Nat).length = 0 → cfg.authmode = wifi_auth_mode_t.WIFI_AUTH_OPEN) ∧
      (0 < ([] : List Nat).length →
        cfg.authmode = wifi_auth_mode_t.WIFI_AUTH_WPA_WPA2_PSK) ∧
      (cfg.channel : Int) = 11 ∧
      cfg.ssid_len = [109, 99].length ∧
      cfg.ssid = [109, 99] ++ zeros (32 - [109, 99].length) ∧
      cfg.password = [] ++ zeros (64 - ([] : List Nat).length) :=
  mc_wifi_start_soft_ap_config quietEnv samplePlatform [109, 99] [] 11 freshState
    (by decide) (by decide) (by decide) (by decide) quietEnv_ok

/-- C9, the code at the failing input.  With an empty compiled-in password the
fallback access point is not open: `_start_soft_ap_server` passes
`sizeof(_mc_soft_ap_password)`, which counts the terminating NUL, so the
password length handed on is 1 rather than 0 and the configuration applied has
WPA/WPA2-PSK authentication. -/
theorem start_soft_ap_server_empty_password_not_open :
    openPlatform.CONFIG_MC_SOFT_AP_PASSWORD.length = 0 ∧
    ((_mc_soft_ap_password openPlatform).take
      (_mc_soft_ap_password openPlatform).length).length = 1 ∧
    _start_soft_ap_server quietEnv openPlatform freshState
      = some (mc_wifi_err_t.mc_wifi_ok,
          { wifi_event_group := 0
            trace :=
              [ Call.esp_wifi_set_mode wifi_mode_t.WIFI_MODE_AP,
                Call.esp_wifi_set_config wifi_interface_t.WIFI_IF_AP
                  (wifi_config_t.ap
                    { ssid := [109, 99] ++ zeros 30
                      password := zeros 64
                      ssid_len := 2
                      channel := 6
                      authmode := wifi_auth_mode_t.WIFI_AUTH_WPA_WPA2_PSK
                      max_connection := 4 }),
                Call.esp_wifi_start ] }) := by
  refine ⟨rfl, rfl, ?_⟩
  rfl

/-! ### Claims about the station handler -/

/-- C8.  On a station-disconnected event `_sta_event_handler` clears the
connected bit and issues exactly one connect call; on a got-address event it
sets the connected bit and issues no call; after `n ≥ 1` consecutive
disconnected events the event group is what it is after one of them (connected
bit clear) and exactly `n` connect calls were issued; any other event leaves
the whole state, hence the bit, unchanged. -/
theorem sta_event_handler_connected_bit (env : Env) (s : State) :
    (¬ (_sta_event_handler env esp_event_base_t.WIFI_EVENT
          WIFI_EVENT_STA_DISCONNECTED s).connected ∧
      (_sta_event_handler env esp_event_base_t.WIFI_EVENT
          WIFI_EVENT_STA_DISCONNECTED s).trace = s.trace ++ [Call.esp_wifi_connect]) ∧
    ((_sta_event_handler env esp_event_base_t.IP_EVENT IP_EVENT_STA_GOT_IP s).connected ∧
      (_sta_event_handler env esp_event_base_t.IP_EVENT IP_EVENT_STA_GOT_IP s).trace
        = s.trace) ∧
    (∀ n : Nat, 1 ≤ n →
      ((_sta_event_handler env esp_event_base_t.WIFI_EVENT
          WIFI_EVENT_STA_DISCONNECTED)^[n] s).wifi_event_group
        = (_sta_event_handler env esp_event_base_t.WIFI_EVENT
            WIFI_EVENT_STA_DISCONNECTED s).wifi_event_group ∧
      ¬ ((_sta_event_handler env esp_event_base_t.WIFI_EVENT
          WIFI_EVENT_STA_DISCONNECTED)^[n] s).connected ∧
      ((_sta_event_handler env esp_event_base_t.WIFI_EVENT
          WIFI_EVENT_STA_DISCONNECTED)^[n] s).trace
        = s.trace ++ List.replicate n Call.esp_wifi_connect ∧
      connectCalls ((_sta_event_handler env esp_event_base_t.WIFI_EVENT
          WIFI_EVENT_STA_DISCONNECTED)^[n] s).trace = connectCalls s.trace + n) ∧
    (∀ (event_base : esp_event_base_t) (event_id : Int),
      ¬ (event_base = esp_event_base_t.WIFI_EVENT ∧ event_id = WIFI_EVENT_STA_DISCONNECTED) →
      ¬ (event_base = esp_event_base_t.IP_EVENT ∧ event_id = IP_EVENT_STA_GOT_IP) →
      _sta_event_handler env event_base event_id s = s) := by
  have hd := handle_disconnected env s
  have hg := handle_gotIp env s
  have hclear : ∀ x : Nat, ¬ State.connected
      { wifi_event_group := x &&& (0xFFFFFFFF ^^^ CONNECTED_BIT)
        trace := s.trace ++ [Call.esp_wifi_connect] } := by
    intro x
    rw [connected_iff]
    simp only []
    rw [clearBit_and]; decide
  refine ⟨⟨?_, ?_⟩, ⟨?_, ?_⟩, ?_, ?_⟩
  · change ¬ (handle env staDisconnected s).connected
    rw [hd]; exact hclear _
  · change (handle env staDisconnected s).trace = _
    rw [hd]
  · change (handle env gotIp s).connected
    rw [hg, connected_iff]
    exact setBit_and _
  · change (handle env gotIp s).trace = _
    rw [hg]
  · intro n hn
    obtain ⟨m, rfl⟩ : ∃ m, n = m + 1 := ⟨n - 1, by omega⟩
    have hi := iterate_disconnected env s m
    change ((handle env staDisconnected)^[m + 1] s).wifi_event_group
        = (handle env staDisconnected s).wifi_event_group ∧
      ¬ ((handle env staDisconnected)^[m + 1] s).connected ∧
      ((handle env staDisconnected)^[m + 1] s).trace = _ ∧
      connectCalls ((handle env staDisconnected)^[m + 1] s).trace = _
    rw [hi, hd]
    refine ⟨rfl, ?_, rfl, ?_⟩
    · rw [connected_iff]
      simp only []
      rw [clearBit_and]; decide
    · simp only [connectCalls_append]
      simp [connectCalls]
  · intro event_base event_id h1 h2
    simp only [_sta_event_handler, if_neg h1, if_neg h2]

/-- C8, witness: three consecutive disconnected events after a connection. -/
theorem sta_event_handler_connected_bit_witness :
    ((_sta_event_handler quietEnv esp_event_base_t.WIFI_EVENT
        WIFI_EVENT_STA_DISCONNECTED)^[3] { wifi_event_group := 1, trace := [] }).wifi_event_group
      = (_sta_event_handler quietEnv esp_event_base_t.WIFI_EVENT
          WIFI_EVENT_STA_DISCONNECTED { wifi_event_group := 1, trace := [] }).wifi_event_group ∧
    ¬ ((_sta_event_handler quietEnv esp_event_base_t.WIFI_EVENT
        WIFI_EVENT_STA_DISCONNECTED)^[3] { wifi_event_group := 1, trace := [] }).connected ∧
    ((_sta_event_handler quietEnv esp_event_base_t.WIFI_EVENT
        WIFI_EVENT_STA_DISCONNECTED)^[3] { wifi_event_group := 1, trace := [] }).trace
      = [] ++ List.replicate 3 Call.esp_wifi_connect ∧
    connectCalls ((_sta_event_handler quietEnv esp_event_base_t.WIFI_EVENT
        WIFI_EVENT_STA_DISCONNECTED)^[3] { wifi_event_group := 1, trace := [] }).trace
      = connectCalls [] + 3 :=
  (sta_event_handler_connected_bit quietEnv { wifi_event_group := 1, trace := [] }).2.2.1 3
    (by decide)

/-! ### Claims about `mc_wifi_init` -/

theorem closedStoreQuietEnv_readFails : closedStoreQuietEnv.readFails :=
  Or.inl fun _ => by
    show ESP_ERR_NVS_NOT_INITIALIZED ≠ ESP_OK
    decide

theorem connectingEnv_readOk : connectingEnv.readOk :=
  ⟨fun _ => rfl,
    fun _ => ⟨rfl, by show (storedBlob "ssid").length ≤ sizeof_ssid; decide⟩,
    fun _ => ⟨rfl, by show (storedBlob "password").length ≤ sizeof_password; decide⟩⟩

theorem storedEnv_readOk : storedEnv.readOk :=
  ⟨fun _ => rfl,
    fun _ => ⟨rfl, by show (storedBlob "ssid").length ≤ sizeof_ssid; decide⟩,
    fun _ => ⟨rfl, by show (storedBlob "password").length ≤ sizeof_password; decide⟩⟩

/-- C4, counterexample.  The credential store cannot be opened.  With a
compiled-in SSID of 32 characters `mc_wifi_init` aborts on the assertion
`ssid_size < sizeof(wifi_config.ap.ssid)` and no access point is activated; the
same happens with a compiled-in password of 63 characters, whose `sizeof` is
64; and a compiled-in channel of 256 is applied as channel 0. -/
theorem mc_wifi_init_fallback_rejects_build :
    closedStoreQuietEnv.readFails ∧
    mc_wifi_init closedStoreQuietEnv longSsidPlatform freshState = none ∧
    mc_wifi_init closedStoreQuietEnv longPasswordPlatform freshState = none ∧
    mc_wifi_init closedStoreQuietEnv farChannelPlatform freshState
      = some
          { wifi_event_group := 0
            trace := bootCalls ++ [Call.nvs_open "wifi"]
              ++ apCalls (apConfig farChannelPlatform [109, 99]
                  [115, 101, 99, 114, 101, 116, 49, 50, 0] 256) } ∧
    (apConfig farChannelPlatform [109, 99]
      [115, 101, 99, 114, 101, 116, 49, 50, 0] 256).channel = 0 := by
  refine ⟨?_, ?_, ?_, ?_, ?_⟩
  · exact Or.inl fun _ => by
      show ESP_ERR_NVS_NOT_INITIALIZED ≠ ESP_OK
      decide
  · rfl
  · rfl
  · rfl
  · rfl

/-- C4 (amended).  For a compiled-in SSID shorter than 32 bytes, a compiled-in
password shorter than 63 bytes and a compiled-in channel in 0..255, on a
platform that does not abort the firmware: when the credential store cannot be
read at start-up (`nvs_open` fails, or `nvs_get_blob` fails for "ssid" or for
"password", e.g. with not-found), `mc_wifi_init` returns after activating
access-point mode: its last three calls are set mode access-point, apply a
configuration on the access-point interface, start, and that configuration
holds the compiled-in SSID with its length, the compiled-in password and the
compiled-in channel.  The only modes ever requested are none and access-point,
so station mode is never entered, and no connect call is issued. -/
theorem mc_wifi_init_without_credentials (env : Env) (p : Platform) (s : State)
    (ok : env.platformOk)
    (hs : p.CONFIG_MC_SOFT_AP_SSID.length < 32)
    (hp : p.CONFIG_MC_SOFT_AP_PASSWORD.length < 63)
    (hc0 : 0 ≤ p.CONFIG_MC_WIFI_CHANNEL) (hc1 : p.CONFIG_MC_WIFI_CHANNEL < 256)
    (hfail : env.readFails) :
    ∃ (s' : State) (pre : List Call) (cfg : wifi_ap_config_t),
      mc_wifi_init env p s = some s' ∧
      s'.trace = s.trace ++ pre
        ++ [Call.esp_wifi_set_mode wifi_mode_t.WIFI_MODE_AP,
            Call.esp_wifi_set_config wifi_interface_t.WIFI_IF_AP (wifi_config_t.ap cfg),
            Call.esp_wifi_start] ∧
      cfg.ssid = p.CONFIG_MC_SOFT_AP_SSID ++ zeros (32 - p.CONFIG_MC_SOFT_AP_SSID.length) ∧
      cfg.ssid_len = p.CONFIG_MC_SOFT_AP_SSID.length ∧
      cfg.password
        = p.CONFIG_MC_SOFT_AP_PASSWORD ++ zeros (64 - p.CONFIG_MC_SOFT_AP_PASSWORD.length) ∧
      (cfg.channel : Int) = p.CONFIG_MC_WIFI_CHANNEL ∧
      modeCalls (pre
        ++ [Call.esp_wifi_set_mode wifi_mode_t.WIFI_MODE_AP,
            Call.esp_wifi_set_config wifi_interface_t.WIFI_IF_AP (wifi_config_t.ap cfg),
            Call.esp_wifi_start])
        = [wifi_mode_t.WIFI_MODE_NULL, wifi_mode_t.WIFI_MODE_AP] ∧
      connectCalls (pre
        ++ [Call.esp_wifi_set_mode wifi_mode_t.WIFI_MODE_AP,
            Call.esp_wifi_set_config wifi_interface_t.WIFI_IF_AP (wifi_config_t.ap cfg),
            Call.esp_wifi_start]) = 0 := by
  have hp' : p.CONFIG_MC_SOFT_AP_PASSWORD.length + 1 < sizeof_password := by
    simp only [sizeof_password]; omega
  obtain ⟨tl, htl, he⟩ := init_no_credentials env p s ok hs hp'
    (get_credentials_fails env _ hfail)
  refine ⟨_, bootCalls ++ tl, apConfig p p.CONFIG_MC_SOFT_AP_SSID
    (p.CONFIG_MC_SOFT_AP_PASSWORD ++ [0]) p.CONFIG_MC_WIFI_CHANNEL, he, ?_, ?_, ?_, ?_, ?_,
    ?_, ?_⟩
  · simp only [apCalls, List.append_assoc]
  · exact memcpy_zeros _ _
  · simp only [apConfig]
    omega
  · exact fallback_password_field _ hp'
  · simp only [apConfig]
    rw [Int.toNat_of_nonneg (Int.emod_nonneg _ (by decide))]
    exact Int.emod_eq_of_lt hc0 hc1
  · exact modeCalls_fallback_segment tl htl _
  · exact connectCalls_fallback_segment tl htl _

/-- C4 (amended), witness: start-up on a platform whose credential store
cannot be opened, with SSID "mc", password "secret12" and channel 6. -/
theorem mc_wifi_init_without_credentials_witness :
    ∃ (s' : State) (pre : List Call) (cfg : wifi_ap_config_t),
      mc_wifi_init closedStoreQuietEnv samplePlatform freshState = some s' ∧
      s'.trace = freshState.trace ++ pre
        ++ [Call.esp_wifi_set_mode wifi_mode_t.WIFI_MODE_AP,
            Call.esp_wifi_set_config wifi_interface_t.WIFI_IF_AP (wifi_config_t.ap cfg),
            Call.esp_wifi_start] ∧
      cfg.ssid = samplePlatform.CONFIG_MC_SOFT_AP_SSID
        ++ zeros (32 - samplePlatform.CONFIG_MC_SOFT_AP_SSID.length) ∧
      cfg.ssid_len = samplePlatform.CONFIG_MC_SOFT_AP_SSID.length ∧
      cfg.password = samplePlatform.CONFIG_MC_SOFT_AP_PASSWORD
        ++ zeros (64 - samplePlatform.CONFIG_MC_SOFT_AP_PASSWORD.length) ∧
      (cfg.channel : Int) = samplePlatform.CONFIG_MC_WIFI_CHANNEL ∧
      modeCalls (pre
        ++ [Call.esp_wifi_set_mode wifi_mode_t.WIFI_MODE_AP,
            Call.esp_wifi_set_config wifi_interface_t.WIFI_IF_AP (wifi_config_t.ap cfg),
            Call.esp_wifi_start])
        = [wifi_mode_t.WIFI_MODE_NULL, wifi_mode_t.WIFI_MODE_AP] ∧
      connectCalls (pre
        ++ [Call.esp_wifi_set_mode wifi_mode_t.WIFI_MODE_AP,
            Call.esp_wifi_set_config wifi_interface_t.WIFI_IF_AP (wifi_config_t.ap cfg),
            Call.esp_wifi_start]) = 0 :=
  mc_wifi_init_without_credentials closedStoreQuietEnv samplePlatform freshState
    closedStoreQuietEnv_ok (by decide) (by decide) (by decide) (by decide)
    closedStoreQuietEnv_readFails

/-- C5.  When the credential store holds valid credentials and the network
stack signals success for the join (a got-address event arrives during the
wait), `mc_wifi_init` returns with the connected bit set; the modes it
requested are none and then station, so the radio is left in station mode, and
none of its calls sets access-point mode or configures the access-point
interface.  The platform does not abort the firmware. -/
theorem mc_wifi_init_with_credentials (env : Env) (p : Platform) (s : State)
    (ok : env.platformOk)
    (hok : env.readOk)
    (hev : ∀ h, gotIp ∈ env.events h) :
    ∃ (s' : State) (new : List Call),
      mc_wifi_init env p s = some s' ∧
      s'.trace = s.trace ++ new ∧
      s'.connected ∧
      modeCalls new = [wifi_mode_t.WIFI_MODE_NULL, wifi_mode_t.WIFI_MODE_STA] ∧
      (∀ c ∈ new, c.isAp = false) := by
  obtain ⟨ssid, password, k, s', _, _, he, ht, hyes, _⟩ := init_with_credentials env p s ok hok
  exact ⟨s', _, he, ht, hyes hev, modeCalls_station_segment _ _ _ _,
    isAp_station_segment _ _ _ _⟩

/-- C5, witness: start-up with SSID "home" / password "hunter22" stored and a
got-address event arriving. -/
theorem mc_wifi_init_with_credentials_witness :
    ∃ (s' : State) (new : List Call),
      mc_wifi_init connectingEnv samplePlatform freshState = some s' ∧
      s'.trace = freshState.trace ++ new ∧
      s'.connected ∧
      modeCalls new = [wifi_mode_t.WIFI_MODE_NULL, wifi_mode_t.WIFI_MODE_STA] ∧
      (∀ c ∈ new, c.isAp = false) :=
  mc_wifi_init_with_credentials connectingEnv samplePlatform freshState connectingEnv_ok
    connectingEnv_readOk (fun _ => by simp [connectingEnv])

/-- C6, counterexample.  Credentials are stored but no event arrives, so the
start-up join times out: `mc_wifi_init` returns with the connected bit clear
and the radio in station mode, and never starts the access point.  Neither
"station connected" nor "access point active" holds. -/
theorem mc_wifi_init_join_timeout_no_fallback :
    mc_wifi_init storedEnv samplePlatform freshState
      = some
          { wifi_event_group := 0
            trace := bootCalls ++ readCalls
              ++ joinCalls [104, 111, 109, 101] [104, 117, 110, 116, 101, 114, 50, 50]
              ++ [Call.xEventGroupWaitBits 1000] } ∧
    ¬ State.connected
      { wifi_event_group := 0
        trace := bootCalls ++ readCalls
          ++ joinCalls [104, 111, 109, 101] [104, 117, 110, 116, 101, 114, 50, 50]
          ++ [Call.xEventGroupWaitBits 1000] } ∧
    modeCalls (bootCalls ++ readCalls
        ++ joinCalls [104, 111, 109, 101] [104, 117, 110, 116, 101, 114, 50, 50]
        ++ [Call.xEventGroupWaitBits 1000])
      = [wifi_mode_t.WIFI_MODE_NULL, wifi_mode_t.WIFI_MODE_STA] := by
  refine ⟨?_, ?_, ?_⟩
  · rfl
  · decide
  · rfl

/-- C6 (amended).  On a platform that does not abort the firmware,
`mc_wifi_init` starts the fallback access point exactly when the stored
credentials cannot be read.  If they cannot be read (the store does not open,
or one of the two blobs is not read or does not fit its buffer) and the
compiled-in SSID is shorter than 32 bytes and the compiled-in password shorter
than 63 bytes, it returns with the modes requested being none and then
access-point and the connected bit clear.  If they can be read, it returns
without ever starting the access point, whatever the outcome of the join: the
modes requested are none and then station, no call touches the access point,
and the connected bit is set if and only if a got-address event arrives during
the wait of the start-up join.  So at most one of station connected and
access-point active holds afterwards, and neither holds when stored credentials
are present but the join times out. -/
theorem mc_wifi_init_fallback_iff_unreadable (env : Env) (p : Platform) (s : State)
    (ok : env.platformOk) :
    (¬ env.readableAt (s.trace ++ bootCalls) →
      p.CONFIG_MC_SOFT_AP_SSID.length < 32 →
      p.CONFIG_MC_SOFT_AP_PASSWORD.length < 63 →
      ∃ (s' : State) (new : List Call),
        mc_wifi_init env p s = some s' ∧ s'.trace = s.trace ++ new ∧
        modeCalls new = [wifi_mode_t.WIFI_MODE_NULL, wifi_mode_t.WIFI_MODE_AP] ∧
        ¬ s'.connected) ∧
    (env.readableAt (s.trace ++ bootCalls) →
      ∃ (s' : State) (new : List Call),
        mc_wifi_init env p s = some s' ∧ s'.trace = s.trace ++ new ∧
        modeCalls new = [wifi_mode_t.WIFI_MODE_NULL, wifi_mode_t.WIFI_MODE_STA] ∧
        (∀ c ∈ new, c.isAp = false) ∧
        (s'.connected ↔ gotIp ∈ env.events (startupWaitHistory env p s))) := by
  constructor
  · intro hr hs hp
    have hp' : p.CONFIG_MC_SOFT_AP_PASSWORD.length + 1 < sizeof_password := by
      simp only [sizeof_password]; omega
    obtain ⟨tl, htl, he⟩ := init_no_credentials env p s ok hs hp'
      (get_credentials_unreadable env _ hr)
    refine ⟨_, bootCalls ++ tl ++ apCalls (apConfig p p.CONFIG_MC_SOFT_AP_SSID
      (p.CONFIG_MC_SOFT_AP_PASSWORD ++ [0]) p.CONFIG_MC_WIFI_CHANNEL), he, ?_,
      modeCalls_fallback_segment tl htl _, ?_⟩
    · simp only [List.append_assoc]
    · simp [State.connected, CONNECTED_BIT]
  · intro hr
    obtain ⟨k, s', he, ht, hc⟩ := init_readable env p s ok hr
    refine ⟨s', bootCalls ++ readCalls
      ++ joinCalls (env.blob (s.trace ++ bootCalls ++ [Call.nvs_open "wifi"]) "ssid")
          (env.blob (s.trace ++ bootCalls
            ++ [Call.nvs_open "wifi", Call.nvs_get_blob "ssid" 32]) "password")
      ++ [Call.xEventGroupWaitBits (10000 / p.portTICK_PERIOD_MS)]
      ++ List.replicate k Call.esp_wifi_connect, he, ?_,
      modeCalls_station_segment _ _ _ _, isAp_station_segment _ _ _ _, hc⟩
    rw [ht]
    simp only [startupWaitHistory, List.append_assoc]

/-- C6 (amended), witness: with a store that cannot be opened the access point
is started; with stored credentials and a join that times out the radio is
left in station mode, not connected, with no access point. -/
theorem mc_wifi_init_fallback_iff_unreadable_witness :
    (∃ (s' : State) (new : List Call),
      mc_wifi_init closedStoreQuietEnv samplePlatform freshState = some s' ∧
      s'.trace = freshState.trace ++ new ∧
      modeCalls new = [wifi_mode_t.WIFI_MODE_NULL, wifi_mode_t.WIFI_MODE_AP] ∧
      ¬ s'.connected) ∧
    (∃ (s' : State) (new : List Call),
      mc_wifi_init storedEnv samplePlatform freshState = some s' ∧
      s'.trace = freshState.trace ++ new ∧
      modeCalls new = [wifi_mode_t.WIFI_MODE_NULL, wifi_mode_t.WIFI_MODE_STA] ∧
      (∀ c ∈ new, c.isAp = false) ∧
      ¬ s'.connected) := by
  constructor
  · exact (mc_wifi_init_fallback_iff_unreadable closedStoreQuietEnv samplePlatform freshState
      closedStoreQuietEnv_ok).1 (fun h => absurd h.1 (by decide)) (by decide) (by decide)
  · obtain ⟨s', new, h1, h2, h3, h4, h5⟩ :=
      (mc_wifi_init_fallback_iff_unreadable storedEnv samplePlatform freshState
        storedEnv_ok).2 ⟨rfl, rfl, by decide, rfl, by decide⟩
    exact ⟨s', new, h1, h2, h3, h4, fun hc => by simpa [storedEnv] using h5.1 hc⟩

end McWifi
